import Mathlib

/-!
Verification development for the onager graph-analytics adaptation layer.

The array-based entry points of `src/onager/src/algorithms/*.rs` are embedded
as Lean functions.  External 64-bit node ids are modelled as `Int`, `f64`
weights and scores as `ℚ`, and fallible Rust functions returning
`Result<T, OnagerError>` as `Except OnagerError T`.

The adaptation layer delegates the per-algorithm numerical work to the
third-party graphina library, whose sources are not part of this repository.
Where a claim depends only on the adaptation layer (argument validation,
graph construction, error mapping, result assembly), the missing library
function is taken as an explicit function parameter, so the theorems hold for
every possible behaviour of the library.  Where a claim depends on the
library's numerical behaviour (PageRank, MST, generators), the library
function is modelled from the specification; those definitions carry a
doc comment starting `Modelled from the spec:`.

Rust `HashMap` iteration order is unspecified; the embedding fixes it to
insertion order (first occurrence in `src ++ dst`), which is one admissible
ordering and the one used consistently for both sides of every comparison.
-/

namespace Onager

/-- The error enumeration of `src/onager/src/error.rs` (`OnagerError`). -/
inductive OnagerError where
  | GraphNotFound : String → OnagerError
  | GraphAlreadyExists : String → OnagerError
  | NodeNotFound : Int → OnagerError
  | InvalidArgument : String → OnagerError
  | GraphError : String → OnagerError
  | SerializationError : String → OnagerError
deriving DecidableEq

/-- True exactly on `Err(InvalidArgument _)` results. -/
def isInvalidArg {α : Type} : Except OnagerError α → Bool
  | .error (.InvalidArgument _) => true
  | _ => false

/-- True exactly on `Err(NodeNotFound _)` results. -/
def isNodeNotFound {α : Type} : Except OnagerError α → Bool
  | .error (.NodeNotFound _) => true
  | _ => false

/-- True on any `Err` result. -/
def isErr {α : Type} : Except OnagerError α → Bool
  | .error _ => true
  | _ => false

/-- One step of the node-collection loop of every entry point
(`for &node in src.iter().chain(dst.iter()) { if !node_set.contains_key(&node) { ... } }`):
append the id if it has not been seen yet. -/
def insertNode (acc : List Int) (v : Int) : List Int :=
  if v ∈ acc then acc else acc ++ [v]

/-- The list of distinct external node ids of the edge list, in first-occurrence
order of `src ++ dst`; the position of an id in this list is its internal
node index (graphina assigns dense indices in insertion order). -/
def nodesOf (src dst : List Int) : List Int :=
  (src ++ dst).foldl insertNode []

/-- Internal index of an external id: its position in the node list. -/
def extIdx (ns : List Int) (v : Int) : Nat := ns.indexOf v

/-- A graph as built by the adaptation layer: external ids by internal index,
and the stored edge list over internal indices with a `ℚ` weight
(the `for i in 0..src.len() { graph.add_edge(...) }` loop). -/
structure WGraph where
  nodes : List Int
  edges : List (Nat × Nat × ℚ)
deriving DecidableEq

/-- The stored edges for edge arrays `src`/`dst` with weight `wf i` for the
`i`-th edge, over internal indices relative to `ns`. -/
def buildEdges (ns : List Int) (src dst : List Int) (wf : Nat → ℚ) :
    List (Nat × Nat × ℚ) :=
  (List.range src.length).map
    (fun i => (extIdx ns (src.getD i 0), extIdx ns (dst.getD i 0), wf i))

/-- Graph construction from parallel arrays with per-edge weights. -/
def buildGraph (src dst : List Int) (wf : Nat → ℚ) : WGraph :=
  { nodes := nodesOf src dst, edges := buildEdges (nodesOf src dst) src dst wf }

/-- Graph construction with the constant weight `1.0` used by the unweighted
entry points. -/
def buildGraphU (src dst : List Int) : WGraph :=
  buildGraph src dst (fun _ => 1)

/-- Directed adjacency pairs of the stored edges (weights are irrelevant to
the PageRank model, which follows the spec in splitting rank uniformly
over out-edges). -/
def edgePairs (es : List (Nat × Nat × ℚ)) : List (Nat × Nat) :=
  es.map (fun e => (e.1, e.2.1))

/-- Adjacency pairs as seen by an algorithm: a directed graph exposes each
stored edge once, an undirected graph exposes it in both directions. -/
def orientPairs (directed : Bool) (ps : List (Nat × Nat)) : List (Nat × Nat) :=
  if directed then ps else ps ++ ps.map (fun e => (e.2, e.1))

/-! ### PageRank (modelled from the spec)

graphina's `pagerank` / `pagerank_parallel` are not part of this repository.
They are modelled from the spec (§4.3, §5): power iteration with damping,
an iteration budget, a convergence tolerance, uniform initialisation,
dangling-node mass redistributed uniformly; the parallel variant computes
the same formula and differs only in execution strategy. -/

/-- Out-degree of internal node `u` in the adjacency pair list. -/
def outdeg (ps : List (Nat × Nat)) (u : Nat) : Nat :=
  (ps.filter (fun e => e.1 = u)).length

/-- Rank mass flowing into node `v`: each edge `(u, v)` carries
`r u / outdeg u`. -/
def prMass (ps : List (Nat × Nat)) (r : Nat → ℚ) (v : Nat) : ℚ :=
  (ps.map (fun e => if e.2 = v then r e.1 / (outdeg ps e.1 : ℚ) else 0)).sum

/-- Total rank currently held by dangling nodes (out-degree zero). -/
def danglingMass (n : Nat) (ps : List (Nat × Nat)) (r : Nat → ℚ) : ℚ :=
  ((List.range n).map (fun u => if outdeg ps u = 0 then r u else 0)).sum

/-- Modelled from the spec: one power-iteration update of PageRank with
damping `d` over `n` nodes. -/
def prStep (n : Nat) (ps : List (Nat × Nat)) (d : ℚ) (r : Nat → ℚ) :
    Nat → ℚ :=
  fun v => (1 - d) / (n : ℚ) + d * prMass ps r v
    + d * danglingMass n ps r / (n : ℚ)

/-- L1 distance between successive iterates, used for the convergence test. -/
def prDelta (n : Nat) (r r2 : Nat → ℚ) : ℚ :=
  ((List.range n).map (fun v => |r2 v - r v|)).sum

/-- Modelled from the spec: run at most `k` power-iteration steps, stopping
early once the L1 change drops below `tol`. -/
def prRun (n : Nat) (ps : List (Nat × Nat)) (d tol : ℚ) :
    Nat → (Nat → ℚ) → (Nat → ℚ)
  | 0, r => r
  | k + 1, r =>
      let r2 := prStep n ps d r
      if prDelta n r r2 < tol then r2 else prRun n ps d tol k r2

/-- Modelled from the spec: graphina's `pagerank` entry — power iteration
from the uniform vector. -/
def pagerankSpec (n : Nat) (ps : List (Nat × Nat)) (d : ℚ) (iters : Nat)
    (tol : ℚ) : Nat → ℚ :=
  prRun n ps d tol iters (fun _ => 1 / (n : ℚ))

/-- Modelled from the spec (§5): graphina's `pagerank_parallel` computes the
same formula as the sequential `pagerank`; only the execution strategy
differs. -/
def pagerank_parallelSpec (n : Nat) (ps : List (Nat × Nat)) (d : ℚ)
    (iters : Nat) (tol : ℚ) : Nat → ℚ :=
  pagerankSpec n ps d iters tol

/-- Result record of `compute_pagerank` (`PageRankResult`). -/
structure PageRankResult where
  node_ids : List Int
  ranks : List ℚ
deriving DecidableEq

/-- `compute_pagerank` of `src/onager/src/algorithms/centrality.rs` (lines
26–94).  The `weights` argument is received but never read (`_weights` in the
source); every edge is inserted with weight `1.0`.  The fixed tolerance is
`1e-6`. -/
def compute_pagerank (src dst : List Int) (_weights : List ℚ) (damping : ℚ)
    (iterations : Nat) (directed : Bool) : Except OnagerError PageRankResult :=
  if src.length ≠ dst.length then
    .error (.InvalidArgument "src and dst arrays must have same length")
  else
    let ns := nodesOf src dst
    let ps := orientPairs directed (edgePairs (buildGraphU src dst).edges)
    let r := pagerankSpec ns.length ps damping iterations (1 / 1000000)
    .ok { node_ids := ns, ranks := (List.range ns.length).map r }

/-- `compute_pagerank_parallel` of `src/onager/src/algorithms/parallel.rs`
(lines 19–106): additionally validates the weights length, rejects the empty
edge list, inserts edges with weight `weights[i]` (or `1.0` when the weights
array is empty), and calls the parallel PageRank. -/
def compute_pagerank_parallel (src dst : List Int) (weights : List ℚ)
    (damping : ℚ) (iterations : Nat) (directed : Bool) :
    Except OnagerError PageRankResult :=
  if src.length ≠ dst.length then
    .error (.InvalidArgument "src and dst arrays must have same length")
  else if weights ≠ [] ∧ weights.length ≠ src.length then
    .error (.InvalidArgument "weights must be empty or same length as edges")
  else if src = [] then
    .error (.InvalidArgument "Cannot compute on empty graph")
  else
    let ns := nodesOf src dst
    let g := buildGraph src dst
      (fun i => if weights = [] then 1 else weights.getD i 0)
    let ps := orientPairs directed (edgePairs g.edges)
    let r := pagerank_parallelSpec ns.length ps damping iterations (1 / 1000000)
    .ok { node_ids := ns, ranks := (List.range ns.length).map r }

/-- External id of internal index `i`, when valid (the `reverse_map.get`
lookups of the result-assembly loops). -/
def extOf? (ns : List Int) (i : Nat) : Option Int :=
  if i < ns.length then some (ns.getD i 0) else none

/-! ### Traversal and paths (`src/onager/src/algorithms/traversal.rs`) -/

/-- Result record of Dijkstra; `none` models the `f64::INFINITY` sentinel the
source stores for unreachable nodes. -/
structure DijkstraResult where
  node_ids : List Int
  distances : List (Option ℚ)
deriving DecidableEq

/-- `compute_dijkstra` (traversal.rs lines 20–63).  graphina's `dijkstra` is
not part of this repository and is passed in as `dij` (internal source index
to per-node optional distance), so the theorems hold for every behaviour of
the library. -/
def compute_dijkstra (dij : WGraph → Nat → Except String (Nat → Option ℚ))
    (src dst : List Int) (source_node : Int) :
    Except OnagerError DijkstraResult :=
  if src.length ≠ dst.length then
    .error (.InvalidArgument "src and dst arrays must have same length")
  else if src = [] then
    .error (.InvalidArgument "Cannot compute on empty graph")
  else
    let ns := nodesOf src dst
    if source_node ∈ ns then
      match dij (buildGraphU src dst) (extIdx ns source_node) with
      | .error e => .error (.GraphError e)
      | .ok d =>
          .ok { node_ids := ns, distances := (List.range ns.length).map d }
    else
      .error (.InvalidArgument
        ("Source node " ++ toString source_node ++ " not found"))

/-- Neighbor list of `u` in insertion order of the adjacency pairs. -/
def adjOf (ps : List (Nat × Nat)) (u : Nat) : List Nat :=
  (ps.filter (fun e => e.1 = u)).map (fun e => e.2)

/-- Work loop of the BFS model: dequeue, enqueue unseen neighbors; `seen` is
the discovery order and contains every enqueued node. -/
def bfsGo (adj : Nat → List Nat) : Nat → List Nat → List Nat → List Nat
  | 0, _, seen => seen
  | _ + 1, [], seen => seen
  | fuel + 1, u :: qs, seen =>
      let st := (adj u).foldl
        (fun (acc : List Nat × List Nat) v =>
          if v ∈ acc.1 then acc else (acc.1 ++ [v], acc.2 ++ [v]))
        (seen, qs)
      bfsGo adj fuel st.2 st.1

/-- Modelled from the spec (§4.2): graphina's `bfs` — breadth-first
visitation order from a source, neighbors in edge-insertion order.  The fuel
`n` bounds the dequeues (at most one per distinct node). -/
def bfsSpec (n : Nat) (ps : List (Nat × Nat)) (s : Nat) : List Nat :=
  bfsGo (adjOf ps) n [s] [s]

/-- Work loop of the DFS model: pop, emit if new, push neighbors. -/
def dfsGo (adj : Nat → List Nat) : Nat → List Nat → List Nat → List Nat
  | 0, _, order => order
  | _ + 1, [], order => order
  | fuel + 1, u :: st, order =>
      if u ∈ order then dfsGo adj fuel st order
      else dfsGo adj fuel (adj u ++ st) (order ++ [u])

/-- Modelled from the spec (§4.2): graphina's `dfs` — depth-first visitation
order from a source.  The fuel bounds the pops (one initial push plus at
most one push per adjacency pair). -/
def dfsSpec (n : Nat) (ps : List (Nat × Nat)) (s : Nat) : List Nat :=
  dfsGo (adjOf ps) (n + ps.length + 1) [s] []

/-- Result record of BFS (`BfsResult`; the source fills both fields with the
same visitation order). -/
structure BfsResult where
  node_ids : List Int
  order : List Int
deriving DecidableEq

/-- Result record of DFS (`DfsResult`). -/
structure DfsResult where
  node_ids : List Int
  order : List Int
deriving DecidableEq

/-- `compute_bfs` (traversal.rs lines 72–115).  A missing source id yields
`InvalidArgument("Source node {} not found")` — built with `ok_or_else`, not
the `NodeNotFound` variant. -/
def compute_bfs (src dst : List Int) (source_node : Int) :
    Except OnagerError BfsResult :=
  if src.length ≠ dst.length then
    .error (.InvalidArgument "src and dst arrays must have same length")
  else if src = [] then
    .error (.InvalidArgument "Cannot compute on empty graph")
  else
    let ns := nodesOf src dst
    if source_node ∈ ns then
      let ps := orientPairs false (edgePairs (buildGraphU src dst).edges)
      let order := (bfsSpec ns.length ps (extIdx ns source_node)).filterMap
        (extOf? ns)
      .ok { node_ids := order, order := order }
    else
      .error (.InvalidArgument
        ("Source node " ++ toString source_node ++ " not found"))

/-- `compute_dfs` (traversal.rs lines 124–167); same missing-source behaviour
as `compute_bfs`. -/
def compute_dfs (src dst : List Int) (source_node : Int) :
    Except OnagerError DfsResult :=
  if src.length ≠ dst.length then
    .error (.InvalidArgument "src and dst arrays must have same length")
  else if src = [] then
    .error (.InvalidArgument "Cannot compute on empty graph")
  else
    let ns := nodesOf src dst
    if source_node ∈ ns then
      let ps := orientPairs false (edgePairs (buildGraphU src dst).edges)
      let order := (dfsSpec ns.length ps (extIdx ns source_node)).filterMap
        (extOf? ns)
      .ok { node_ids := order, order := order }
    else
      .error (.InvalidArgument
        ("Source node " ++ toString source_node ++ " not found"))

/-- `compute_shortest_distance` (traversal.rs lines 171–214); `none` models
the `f64::INFINITY` return for an unreachable target. -/
def compute_shortest_distance
    (dij : WGraph → Nat → Except String (Nat → Option ℚ))
    (src dst : List Int) (source_node target_node : Int) :
    Except OnagerError (Option ℚ) :=
  if src.length ≠ dst.length then
    .error (.InvalidArgument "src and dst arrays must have same length")
  else if src = [] then
    .error (.InvalidArgument "Cannot compute on empty graph")
  else
    let ns := nodesOf src dst
    if source_node ∈ ns then
      if target_node ∈ ns then
        match dij (buildGraphU src dst) (extIdx ns source_node) with
        | .error e => .error (.GraphError e)
        | .ok d => .ok (d (extIdx ns target_node))
      else
        .error (.InvalidArgument
          ("Target node " ++ toString target_node ++ " not found"))
    else
      .error (.InvalidArgument
        ("Source node " ++ toString source_node ++ " not found"))

/-- Result record of Bellman-Ford. -/
structure BellmanFordResult where
  node_ids : List Int
  distances : List (Option ℚ)
deriving DecidableEq

/-- `compute_bellman_ford` (traversal.rs lines 224–273): requires an aligned
weights array; the library's `None` (negative cycle) becomes a
`GraphError`. -/
def compute_bellman_ford (bf : WGraph → Nat → Option (Nat → Option ℚ))
    (src dst : List Int) (weights : List ℚ) (source_node : Int) :
    Except OnagerError BellmanFordResult :=
  if src.length ≠ dst.length ∨ src.length ≠ weights.length then
    .error (.InvalidArgument "src, dst, and weights arrays must have same length")
  else if src = [] then
    .error (.InvalidArgument "Cannot compute on empty graph")
  else
    let ns := nodesOf src dst
    if source_node ∈ ns then
      match bf (buildGraph src dst (fun i => weights.getD i 0))
          (extIdx ns source_node) with
      | none => .error (.GraphError "Negative cycle detected")
      | some d =>
          .ok { node_ids := ns, distances := (List.range ns.length).map d }
    else
      .error (.InvalidArgument
        ("Source node " ++ toString source_node ++ " not found"))

/-- Result record of Floyd-Warshall. -/
structure FloydWarshallResult where
  src_nodes : List Int
  dst_nodes : List Int
  distances : List (Option ℚ)
deriving DecidableEq

/-- `compute_floyd_warshall` (traversal.rs lines 283–342): all-pairs
distances, keeping only pairs with distinct external endpoints. -/
def compute_floyd_warshall
    (fw : WGraph → Option (List (Nat × Nat × Option ℚ)))
    (src dst : List Int) (weights : List ℚ) :
    Except OnagerError FloydWarshallResult :=
  if src.length ≠ dst.length ∨ src.length ≠ weights.length then
    .error (.InvalidArgument "src, dst, and weights arrays must have same length")
  else if src = [] then
    .error (.InvalidArgument "Cannot compute on empty graph")
  else
    let ns := nodesOf src dst
    match fw (buildGraph src dst (fun i => weights.getD i 0)) with
    | none => .error (.GraphError "Negative cycle detected")
    | some triples =>
        let acc := triples.foldl
          (fun (acc : FloydWarshallResult) t =>
            match extOf? ns t.1, extOf? ns t.2.1 with
            | some fe, some te =>
                if fe ≠ te then
                  { src_nodes := acc.src_nodes ++ [fe],
                    dst_nodes := acc.dst_nodes ++ [te],
                    distances := acc.distances ++ [t.2.2] }
                else acc
            | _, _ => acc)
          { src_nodes := [], dst_nodes := [], distances := [] }
        .ok acc

/-! ### Remaining centrality entry points (`centrality.rs`) -/

/-- In-degree of `v` over adjacency pairs, as a score. -/
def indegQ (ps : List (Nat × Nat)) (v : Nat) : ℚ :=
  ((ps.filter (fun e => e.2 = v)).length : ℚ)

/-- Out-degree of `v` over adjacency pairs, as a score. -/
def outdegQ (ps : List (Nat × Nat)) (v : Nat) : ℚ :=
  ((ps.filter (fun e => e.1 = v)).length : ℚ)

/-- Result record of degree centrality (`DegreeResult`). -/
structure DegreeResult where
  node_ids : List Int
  in_degrees : List ℚ
  out_degrees : List ℚ
deriving DecidableEq

/-- `compute_degree` (centrality.rs lines 104–170).  Modelled from the spec
(§4.3): graphina's `in_degree_centrality`/`out_degree_centrality` count
incoming/outgoing edges; on the undirected graph the single
`in_degree_centrality` call counts all incident edges and the source
duplicates that array into both output slots. -/
def compute_degree (src dst : List Int) (directed : Bool) :
    Except OnagerError DegreeResult :=
  if src.length ≠ dst.length then
    .error (.InvalidArgument "src and dst arrays must have same length")
  else
    let ns := nodesOf src dst
    let stored := edgePairs (buildGraphU src dst).edges
    if directed then
      .ok { node_ids := ns,
            in_degrees := (List.range ns.length).map (indegQ stored),
            out_degrees := (List.range ns.length).map (outdegQ stored) }
    else
      let ps := orientPairs false stored
      .ok { node_ids := ns,
            in_degrees := (List.range ns.length).map (indegQ ps),
            out_degrees := (List.range ns.length).map (indegQ ps) }

/-- Node-aligned score record shared by the centrality wrappers whose Rust
result structs all consist of a `node_ids` array and one score array. -/
structure NodeScores where
  node_ids : List Int
  scores : List ℚ
deriving DecidableEq

/-- `compute_betweenness` (centrality.rs lines 179–220); the library call is
a parameter. -/
def compute_betweenness (bw : WGraph → Bool → Except String (Nat → ℚ))
    (src dst : List Int) (normalized : Bool) : Except OnagerError NodeScores :=
  if src.length ≠ dst.length then
    .error (.InvalidArgument "src and dst arrays must have same length")
  else if src = [] then
    .error (.InvalidArgument "Cannot compute betweenness on empty graph")
  else
    let ns := nodesOf src dst
    match bw (buildGraphU src dst) normalized with
    | .error e => .error (.GraphError e)
    | .ok c => .ok { node_ids := ns, scores := (List.range ns.length).map c }

/-- `compute_closeness` (centrality.rs lines 229–266). -/
def compute_closeness (cl : WGraph → Except String (Nat → ℚ))
    (src dst : List Int) : Except OnagerError NodeScores :=
  if src.length ≠ dst.length then
    .error (.InvalidArgument "src and dst arrays must have same length")
  else if src = [] then
    .error (.InvalidArgument "Cannot compute closeness on empty graph")
  else
    let ns := nodesOf src dst
    match cl (buildGraphU src dst) with
    | .error e => .error (.GraphError e)
    | .ok c => .ok { node_ids := ns, scores := (List.range ns.length).map c }

/-- `compute_eigenvector` (centrality.rs lines 275–317). -/
def compute_eigenvector (ev : WGraph → Nat → ℚ → Except String (Nat → ℚ))
    (src dst : List Int) (max_iter : Nat) (tolerance : ℚ) :
    Except OnagerError NodeScores :=
  if src.length ≠ dst.length then
    .error (.InvalidArgument "src and dst arrays must have same length")
  else if src = [] then
    .error (.InvalidArgument "Cannot compute eigenvector on empty graph")
  else
    let ns := nodesOf src dst
    match ev (buildGraphU src dst) max_iter tolerance with
    | .error e => .error (.GraphError e)
    | .ok c => .ok { node_ids := ns, scores := (List.range ns.length).map c }

/-- `compute_katz` (centrality.rs lines 326–369). -/
def compute_katz (kz : WGraph → ℚ → Nat → ℚ → Except String (Nat → ℚ))
    (src dst : List Int) (alpha : ℚ) (max_iter : Nat) (tolerance : ℚ) :
    Except OnagerError NodeScores :=
  if src.length ≠ dst.length then
    .error (.InvalidArgument "src and dst arrays must have same length")
  else if src = [] then
    .error (.InvalidArgument "Cannot compute Katz on empty graph")
  else
    let ns := nodesOf src dst
    match kz (buildGraphU src dst) alpha max_iter tolerance with
    | .error e => .error (.GraphError e)
    | .ok c => .ok { node_ids := ns, scores := (List.range ns.length).map c }

/-- `compute_harmonic` (centrality.rs lines 378–415). -/
def compute_harmonic (hm : WGraph → Except String (Nat → ℚ))
    (src dst : List Int) : Except OnagerError NodeScores :=
  if src.length ≠ dst.length then
    .error (.InvalidArgument "src and dst arrays must have same length")
  else if src = [] then
    .error (.InvalidArgument "Cannot compute harmonic on empty graph")
  else
    let ns := nodesOf src dst
    match hm (buildGraphU src dst) with
    | .error e => .error (.GraphError e)
    | .ok c => .ok { node_ids := ns, scores := (List.range ns.length).map c }

/-- Result record of the single-node degree query (`NodeDegreeResult`). -/
structure NodeDegreeResult where
  in_degree : Int
  out_degree : Int
deriving DecidableEq

/-- `compute_node_degree` (centrality.rs lines 424–463): pure array scan,
counting occurrences in `src` (out) and `dst` (in); a node in neither array
is `InvalidArgument("Node {} not found in graph")`. -/
def compute_node_degree (src dst : List Int) (node : Int) :
    Except OnagerError NodeDegreeResult :=
  if src.length ≠ dst.length then
    .error (.InvalidArgument "src and dst arrays must have same length")
  else if src = [] then
    .error (.InvalidArgument "Cannot compute on empty graph")
  else if node ∈ src ∨ node ∈ dst then
    .ok { in_degree := ((dst.filter (fun v => v = node)).length : Int),
          out_degree := ((src.filter (fun v => v = node)).length : Int) }
  else
    .error (.InvalidArgument ("Node " ++ toString node ++ " not found in graph"))

/-- Result record of VoteRank (`VoteRankResult`). -/
structure VoteRankResult where
  node_ids : List Int
deriving DecidableEq

/-- `compute_voterank` (centrality.rs lines 471–510): the empty edge list
yields an empty `Ok` result, not an error. -/
def compute_voterank (vr : WGraph → Nat → List Nat) (src dst : List Int)
    (num_seeds : Nat) : Except OnagerError VoteRankResult :=
  if src.length ≠ dst.length then
    .error (.InvalidArgument "src and dst arrays must have same length")
  else if src = [] then
    .ok { node_ids := [] }
  else
    let ns := nodesOf src dst
    .ok { node_ids := (vr (buildGraphU src dst) num_seeds).filterMap (extOf? ns) }

/-- `compute_local_reaching` (centrality.rs lines 520–567): empty input
yields an empty `Ok` result. -/
def compute_local_reaching (lr : WGraph → Nat → Except String (Nat → ℚ))
    (src dst : List Int) (distance : Nat) : Except OnagerError NodeScores :=
  if src.length ≠ dst.length then
    .error (.InvalidArgument "src and dst arrays must have same length")
  else if src = [] then
    .ok { node_ids := [], scores := [] }
  else
    let ns := nodesOf src dst
    match lr (buildGraphU src dst) distance with
    | .error e => .error (.GraphError e)
    | .ok c => .ok { node_ids := ns, scores := (List.range ns.length).map c }

/-- `compute_laplacian` (centrality.rs lines 577–620): empty input yields an
empty `Ok` result. -/
def compute_laplacian (lp : WGraph → Except String (Nat → ℚ))
    (src dst : List Int) : Except OnagerError NodeScores :=
  if src.length ≠ dst.length then
    .error (.InvalidArgument "src and dst arrays must have same length")
  else if src = [] then
    .ok { node_ids := [], scores := [] }
  else
    let ns := nodesOf src dst
    match lp (buildGraphU src dst) with
    | .error e => .error (.GraphError e)
    | .ok c => .ok { node_ids := ns, scores := (List.range ns.length).map c }

/-! ### Community detection (`src/onager/src/algorithms/community.rs`)

The six library algorithms are not part of this repository; each is a
function parameter.  All six entry points share the same validation prologue:
length mismatch, then the empty edge list, each an `InvalidArgument`. -/

/-- Node/community pair assembly for the algorithms returning a partition as
a list of communities of internal ids (`for (comm_id, community) in
communities.iter().enumerate()`). -/
def flattenCommunities (ns : List Int) (cs : List (List Nat)) :
    List Int × List Int :=
  (cs.zip (List.range cs.length)).foldl
    (fun acc p =>
      p.1.foldl
        (fun (a : List Int × List Int) i =>
          match extOf? ns i with
          | some e => (a.1 ++ [e], a.2 ++ [Int.ofNat p.2])
          | none => a)
        acc)
    ([], [])

/-- Node/label pair assembly for the algorithms returning one label per
internal index (`for (i, label) in labels_vec.into_iter().enumerate()`). -/
def flattenLabels (ns : List Int) (ls : List Nat) : List Int × List Int :=
  (ls.zip (List.range ls.length)).foldl
    (fun (a : List Int × List Int) p =>
      match extOf? ns p.2 with
      | some e => (a.1 ++ [e], a.2 ++ [Int.ofNat p.1])
      | none => a)
    ([], [])

/-- Result record of Louvain (`LouvainResult`). -/
structure LouvainResult where
  node_ids : List Int
  community_ids : List Int
deriving DecidableEq

/-- `compute_louvain` (community.rs lines 23–67). -/
def compute_louvain
    (lv : WGraph → Option Nat → Except String (List (List Nat)))
    (src dst : List Int) (seed : Option Nat) :
    Except OnagerError LouvainResult :=
  if src.length ≠ dst.length then
    .error (.InvalidArgument "src and dst arrays must have same length")
  else if src = [] then
    .error (.InvalidArgument "Cannot compute on empty graph")
  else
    let ns := nodesOf src dst
    match lv (buildGraphU src dst) seed with
    | .error e => .error (.GraphError e)
    | .ok cs =>
        let r := flattenCommunities ns cs
        .ok { node_ids := r.1, community_ids := r.2 }

/-- Result record of connected components (`ConnectedComponentsResult`). -/
structure ConnectedComponentsResult where
  node_ids : List Int
  component_ids : List Int
deriving DecidableEq

/-- `compute_connected_components` (community.rs lines 76–120). -/
def compute_connected_components (cc : WGraph → List (List Nat))
    (src dst : List Int) : Except OnagerError ConnectedComponentsResult :=
  if src.length ≠ dst.length then
    .error (.InvalidArgument "src and dst arrays must have same length")
  else if src = [] then
    .error (.InvalidArgument "Cannot compute on empty graph")
  else
    let ns := nodesOf src dst
    let r := flattenCommunities ns (cc (buildGraphU src dst))
    .ok { node_ids := r.1, component_ids := r.2 }

/-- Result record of label propagation (`LabelPropagationResult`). -/
structure LabelPropagationResult where
  node_ids : List Int
  labels : List Int
deriving DecidableEq

/-- `compute_label_propagation` (community.rs lines 129–170); the library is
called with the fixed round budget `100` and no seed. -/
def compute_label_propagation
    (lpr : WGraph → Nat → Option Nat → Except String (List Nat))
    (src dst : List Int) : Except OnagerError LabelPropagationResult :=
  if src.length ≠ dst.length then
    .error (.InvalidArgument "src and dst arrays must have same length")
  else if src = [] then
    .error (.InvalidArgument "Cannot compute on empty graph")
  else
    let ns := nodesOf src dst
    match lpr (buildGraphU src dst) 100 none with
    | .error e => .error (.GraphError e)
    | .ok ls =>
        let r := flattenLabels ns ls
        .ok { node_ids := r.1, labels := r.2 }

/-- Result record of Girvan-Newman (`GirvanNewmanResult`). -/
structure GirvanNewmanResult where
  node_ids : List Int
  community_ids : List Int
deriving DecidableEq

/-- `compute_girvan_newman` (community.rs lines 180–235): also rejects
`target_communities <= 0`, after the emptiness check. -/
def compute_girvan_newman
    (gn : WGraph → Nat → Except String (List (List Nat)))
    (src dst : List Int) (target_communities : Int) :
    Except OnagerError GirvanNewmanResult :=
  if src.length ≠ dst.length then
    .error (.InvalidArgument "src and dst arrays must have same length")
  else if src = [] then
    .error (.InvalidArgument "Cannot compute on empty graph")
  else if target_communities ≤ 0 then
    .error (.InvalidArgument "target_communities must be positive")
  else
    let ns := nodesOf src dst
    match gn (buildGraphU src dst) target_communities.toNat with
    | .error e => .error (.GraphError e)
    | .ok cs =>
        let r := flattenCommunities ns cs
        .ok { node_ids := r.1, community_ids := r.2 }

/-- Result record of spectral clustering (`SpectralClusteringResult`). -/
structure SpectralClusteringResult where
  node_ids : List Int
  community_ids : List Int
deriving DecidableEq

/-- `compute_spectral_clustering` (community.rs lines 245–301): also rejects
`k == 0`, after the emptiness check. -/
def compute_spectral_clustering
    (sc : WGraph → Nat → Option Nat → Except String (List (List Nat)))
    (src dst : List Int) (k : Nat) (seed : Option Nat) :
    Except OnagerError SpectralClusteringResult :=
  if src.length ≠ dst.length then
    .error (.InvalidArgument "src and dst arrays must have same length")
  else if src = [] then
    .error (.InvalidArgument "Cannot compute on empty graph")
  else if k = 0 then
    .error (.InvalidArgument "k must be positive")
  else
    let ns := nodesOf src dst
    match sc (buildGraphU src dst) k seed with
    | .error e => .error (.GraphError e)
    | .ok cs =>
        let r := flattenCommunities ns cs
        .ok { node_ids := r.1, community_ids := r.2 }

/-- Result record of Infomap (`InfomapResult`). -/
structure InfomapResult where
  node_ids : List Int
  community_ids : List Int
deriving DecidableEq

/-- `compute_infomap` (community.rs lines 311–365): also rejects
`max_iter == 0`, after the emptiness check. -/
def compute_infomap
    (im : WGraph → Nat → Option Nat → Except String (List Nat))
    (src dst : List Int) (max_iter : Nat) (seed : Option Nat) :
    Except OnagerError InfomapResult :=
  if src.length ≠ dst.length then
    .error (.InvalidArgument "src and dst arrays must have same length")
  else if src = [] then
    .error (.InvalidArgument "Cannot compute on empty graph")
  else if max_iter = 0 then
    .error (.InvalidArgument "max_iter must be positive")
  else
    let ns := nodesOf src dst
    match im (buildGraphU src dst) max_iter seed with
    | .error e => .error (.GraphError e)
    | .ok ls =>
        let r := flattenLabels ns ls
        .ok { node_ids := r.1, community_ids := r.2 }

/-! ### Link prediction (`src/onager/src/algorithms/links.rs`)

All four wrappers are byte-for-byte the same adaptation shape around four
different library calls; the library call is a parameter. -/

/-- Result record shared by the four link-prediction wrappers
(`LinkPredictionResult`). -/
structure LinkPredictionResult where
  node1 : List Int
  node2 : List Int
  scores : List ℚ
deriving DecidableEq

/-- Pair-aligned assembly (`for ((u, v), coef) in results`). -/
def flattenPairScores (ns : List Int) (rs : List ((Nat × Nat) × ℚ)) :
    LinkPredictionResult :=
  rs.foldl
    (fun (a : LinkPredictionResult) p =>
      match extOf? ns p.1.1, extOf? ns p.1.2 with
      | some u, some v =>
          { node1 := a.node1 ++ [u], node2 := a.node2 ++ [v],
            scores := a.scores ++ [p.2] }
      | _, _ => a)
    { node1 := [], node2 := [], scores := [] }

/-- Shared body of the four link-prediction entry points (links.rs lines
24–68, 71–115, 118–163, 165–210): identical guards and assembly around the
library call `lk`. -/
def linkPredictionBody (lk : WGraph → List ((Nat × Nat) × ℚ))
    (src dst : List Int) : Except OnagerError LinkPredictionResult :=
  if src.length ≠ dst.length then
    .error (.InvalidArgument "src and dst arrays must have same length")
  else if src = [] then
    .error (.InvalidArgument "Cannot compute on empty graph")
  else
    let ns := nodesOf src dst
    .ok (flattenPairScores ns (lk (buildGraphU src dst)))

/-- `compute_jaccard` (links.rs lines 24–68). -/
def compute_jaccard (lk : WGraph → List ((Nat × Nat) × ℚ))
    (src dst : List Int) : Except OnagerError LinkPredictionResult :=
  linkPredictionBody lk src dst

/-- `compute_adamic_adar` (links.rs lines 71–115). -/
def compute_adamic_adar (lk : WGraph → List ((Nat × Nat) × ℚ))
    (src dst : List Int) : Except OnagerError LinkPredictionResult :=
  linkPredictionBody lk src dst

/-- `compute_preferential_attachment` (links.rs lines 118–163). -/
def compute_preferential_attachment (lk : WGraph → List ((Nat × Nat) × ℚ))
    (src dst : List Int) : Except OnagerError LinkPredictionResult :=
  linkPredictionBody lk src dst

/-- `compute_resource_allocation` (links.rs lines 165–210). -/
def compute_resource_allocation (lk : WGraph → List ((Nat × Nat) × ℚ))
    (src dst : List Int) : Except OnagerError LinkPredictionResult :=
  linkPredictionBody lk src dst

/-! ### Metrics (`src/onager/src/algorithms/metrics.rs`) -/

/-- `compute_diameter` (metrics.rs lines 17–43): the library's `None` maps to
`-1`. -/
def compute_diameter (dm : WGraph → Option Nat) (src dst : List Int) :
    Except OnagerError Int :=
  if src.length ≠ dst.length then
    .error (.InvalidArgument "src and dst arrays must have same length")
  else if src = [] then
    .error (.InvalidArgument "Cannot compute on empty graph")
  else
    .ok (match dm (buildGraphU src dst) with
         | some d => (d : Int)
         | none => -1)

/-- `compute_radius` (metrics.rs lines 46–72). -/
def compute_radius (rd : WGraph → Option Nat) (src dst : List Int) :
    Except OnagerError Int :=
  if src.length ≠ dst.length then
    .error (.InvalidArgument "src and dst arrays must have same length")
  else if src = [] then
    .error (.InvalidArgument "Cannot compute on empty graph")
  else
    .ok (match rd (buildGraphU src dst) with
         | some d => (d : Int)
         | none => -1)

/-- `compute_avg_clustering` (metrics.rs lines 75–101). -/
def compute_avg_clustering (ac : WGraph → ℚ) (src dst : List Int) :
    Except OnagerError ℚ :=
  if src.length ≠ dst.length then
    .error (.InvalidArgument "src and dst arrays must have same length")
  else if src = [] then
    .error (.InvalidArgument "Cannot compute on empty graph")
  else
    .ok (ac (buildGraphU src dst))

/-- `compute_avg_path_length` (metrics.rs lines 104–130); `none` models the
`f64::NAN` fallback for a library `None`. -/
def compute_avg_path_length (ap : WGraph → Option ℚ) (src dst : List Int) :
    Except OnagerError (Option ℚ) :=
  if src.length ≠ dst.length then
    .error (.InvalidArgument "src and dst arrays must have same length")
  else if src = [] then
    .error (.InvalidArgument "Cannot compute on empty graph")
  else
    .ok (ap (buildGraphU src dst))

/-- `compute_transitivity` (metrics.rs lines 133–159). -/
def compute_transitivity (tr : WGraph → ℚ) (src dst : List Int) :
    Except OnagerError ℚ :=
  if src.length ≠ dst.length then
    .error (.InvalidArgument "src and dst arrays must have same length")
  else if src = [] then
    .error (.InvalidArgument "Cannot compute on empty graph")
  else
    .ok (tr (buildGraphU src dst))

/-- Result record of triangle counting (`TriangleResult`). -/
structure TriangleResult where
  node_ids : List Int
  triangle_counts : List Int
deriving DecidableEq

/-- Per-node count assembly (`for (node_id, count) in triangles`). -/
def flattenCounts (ns : List Int) (ts : List (Nat × Nat)) : TriangleResult :=
  ts.foldl
    (fun (a : TriangleResult) p =>
      match extOf? ns p.1 with
      | some e =>
          { node_ids := a.node_ids ++ [e],
            triangle_counts := a.triangle_counts ++ [Int.ofNat p.2] }
      | none => a)
    { node_ids := [], triangle_counts := [] }

/-- `compute_triangle_count` (metrics.rs lines 168–210). -/
def compute_triangle_count (tc : WGraph → List (Nat × Nat))
    (src dst : List Int) : Except OnagerError TriangleResult :=
  if src.length ≠ dst.length then
    .error (.InvalidArgument "src and dst arrays must have same length")
  else if src = [] then
    .error (.InvalidArgument "Cannot compute on empty graph")
  else
    let ns := nodesOf src dst
    .ok (flattenCounts ns (tc (buildGraphU src dst)))

/-- `compute_assortativity` (metrics.rs lines 215–241). -/
def compute_assortativity (ast : WGraph → ℚ) (src dst : List Int) :
    Except OnagerError ℚ :=
  if src.length ≠ dst.length then
    .error (.InvalidArgument "src and dst arrays must have same length")
  else if src = [] then
    .error (.InvalidArgument "Cannot compute on empty graph")
  else
    .ok (ast (buildGraphU src dst))

/-- `compute_graph_density` (metrics.rs lines 249–281): pure arithmetic on
the distinct-node count and the edge count. -/
def compute_graph_density (src dst : List Int) (directed : Bool) :
    Except OnagerError ℚ :=
  if src.length ≠ dst.length then
    .error (.InvalidArgument "src and dst arrays must have same length")
  else if src = [] then
    .error (.InvalidArgument "Cannot compute on empty graph")
  else
    let n : ℚ := ((nodesOf src dst).length : ℚ)
    if n < 2 then .ok 0
    else
      let ec : ℚ := (src.length : ℚ)
      let mx := n * (n - 1)
      if directed then .ok (ec / mx) else .ok (2 * ec / mx)

/-! ### Subgraph operations (`src/onager/src/algorithms/subgraphs.rs`) -/

/-- Edge-list result of subgraph extraction (`EgoGraphResult` /
`InducedSubgraphResult`). -/
structure EdgeListResult where
  src : List Int
  dst : List Int
deriving DecidableEq

/-- Edge-pair assembly (`for (u, v, _) in sub.edges()`). -/
def flattenEdgePairs (ns : List Int) (es : List (Nat × Nat)) :
    EdgeListResult :=
  es.foldl
    (fun (a : EdgeListResult) p =>
      match extOf? ns p.1, extOf? ns p.2 with
      | some u, some v => { src := a.src ++ [u], dst := a.dst ++ [v] }
      | _, _ => a)
    { src := [], dst := [] }

/-- `compute_ego_graph` (subgraphs.rs lines 19–73): a missing center is a
genuine `NodeNotFound` error here. -/
def compute_ego_graph (eg : WGraph → Nat → Nat → Except String (List (Nat × Nat)))
    (src dst : List Int) (center : Int) (radius : Nat) :
    Except OnagerError EdgeListResult :=
  if src.length ≠ dst.length then
    .error (.InvalidArgument "src and dst arrays must have same length")
  else if src = [] then
    .error (.InvalidArgument "Cannot compute on empty graph")
  else
    let ns := nodesOf src dst
    if center ∈ ns then
      match eg (buildGraphU src dst) (extIdx ns center) radius with
      | .error e => .error (.GraphError e)
      | .ok es => .ok (flattenEdgePairs ns es)
    else
      .error (.NodeNotFound center)

/-- Result record of the k-hop query (`KHopNeighborsResult`). -/
structure KHopNeighborsResult where
  node_ids : List Int
deriving DecidableEq

/-- `compute_k_hop_neighbors` (subgraphs.rs lines 81–126): missing start is
`NodeNotFound`. -/
def compute_k_hop_neighbors (kh : WGraph → Nat → Nat → List Nat)
    (src dst : List Int) (start : Int) (k : Nat) :
    Except OnagerError KHopNeighborsResult :=
  if src.length ≠ dst.length then
    .error (.InvalidArgument "src and dst arrays must have same length")
  else if src = [] then
    .error (.InvalidArgument "Cannot compute on empty graph")
  else
    let ns := nodesOf src dst
    if start ∈ ns then
      .ok { node_ids :=
        (kh (buildGraphU src dst) (extIdx ns start) k).filterMap (extOf? ns) }
    else
      .error (.NodeNotFound start)

/-- `compute_induced_subgraph` (subgraphs.rs lines 135–195): additionally
rejects an empty selection; unknown selected ids are silently dropped. -/
def compute_induced_subgraph
    (ind : WGraph → List Nat → Except String (List (Nat × Nat)))
    (src dst : List Int) (node_ids : List Int) :
    Except OnagerError EdgeListResult :=
  if src.length ≠ dst.length then
    .error (.InvalidArgument "src and dst arrays must have same length")
  else if src = [] then
    .error (.InvalidArgument "Cannot compute on empty graph")
  else if node_ids = [] then
    .error (.InvalidArgument "node_ids must not be empty")
  else
    let ns := nodesOf src dst
    let selected := node_ids.filterMap
      (fun e => if e ∈ ns then some (extIdx ns e) else none)
    match ind (buildGraphU src dst) selected with
    | .error e => .error (.GraphError e)
    | .ok es => .ok (flattenEdgePairs ns es)

/-! ### Approximation algorithms (`src/onager/src/algorithms/approximation.rs`) -/

/-- Node-set result of the clique/independent-set/vertex-cover wrappers. -/
structure NodeSetResult where
  node_ids : List Int
deriving DecidableEq

/-- Shared body of the three subset-selection wrappers (approximation.rs
lines 20–65, 73–114, 122–163): empty input returns an empty `Ok` set, and
the mapped-back external ids are sorted for deterministic output. -/
def approxSetBody (sel : WGraph → List Nat) (src dst : List Int) :
    Except OnagerError NodeSetResult :=
  if src.length ≠ dst.length then
    .error (.InvalidArgument "src and dst arrays must have same length")
  else if src = [] then
    .ok { node_ids := [] }
  else
    let ns := nodesOf src dst
    let sorted := ((sel (buildGraphU src dst)).filterMap (extOf? ns)).mergeSort
      (fun a b => a ≤ b)
    .ok { node_ids := sorted }

/-- `compute_max_clique` (approximation.rs lines 20–65). -/
def compute_max_clique (sel : WGraph → List Nat) (src dst : List Int) :
    Except OnagerError NodeSetResult :=
  approxSetBody sel src dst

/-- `compute_independent_set` (approximation.rs lines 73–114). -/
def compute_independent_set (sel : WGraph → List Nat) (src dst : List Int) :
    Except OnagerError NodeSetResult :=
  approxSetBody sel src dst

/-- `compute_vertex_cover` (approximation.rs lines 122–163). -/
def compute_vertex_cover (sel : WGraph → List Nat) (src dst : List Int) :
    Except OnagerError NodeSetResult :=
  approxSetBody sel src dst

/-- Result record of TSP (`TspResult`). -/
structure TspResult where
  tour : List Int
  cost : ℚ
deriving DecidableEq

/-- `compute_tsp` (approximation.rs lines 172–211): requires aligned weights
and rejects the empty edge list. -/
def compute_tsp (tsp : WGraph → Except String (List Nat × ℚ))
    (src dst : List Int) (weights : List ℚ) : Except OnagerError TspResult :=
  if src.length ≠ dst.length ∨ src.length ≠ weights.length then
    .error (.InvalidArgument "src, dst, and weights arrays must have same length")
  else if src = [] then
    .error (.InvalidArgument "Cannot compute TSP on empty graph")
  else
    let ns := nodesOf src dst
    match tsp (buildGraph src dst (fun i => weights.getD i 0)) with
    | .error e => .error (.GraphError e)
    | .ok r => .ok { tour := r.1.filterMap (extOf? ns), cost := r.2 }

/-! ### Remaining parallel entry points (`src/onager/src/algorithms/parallel.rs`) -/

/-- `compute_bfs_parallel` (parallel.rs lines 109–156): here a missing source
IS a `NodeNotFound` error (unlike the sequential `compute_bfs`). -/
def compute_bfs_parallel (bp : WGraph → Nat → List Nat)
    (src dst : List Int) (source : Int) : Except OnagerError BfsResult :=
  if src.length ≠ dst.length then
    .error (.InvalidArgument "src and dst arrays must have same length")
  else if src = [] then
    .error (.InvalidArgument "Cannot compute on empty graph")
  else
    let ns := nodesOf src dst
    if source ∈ ns then
      let order := (bp (buildGraphU src dst) (extIdx ns source)).filterMap
        (extOf? ns)
      .ok { node_ids := order, order := order }
    else
      .error (.NodeNotFound source)

/-- Result record of parallel shortest paths
(`ShortestPathsParallelResult`); the library's `usize` distances become
scores. -/
structure ShortestPathsParallelResult where
  node_ids : List Int
  distances : List ℚ
deriving DecidableEq

/-- `compute_shortest_paths_parallel` (parallel.rs lines 165–218). -/
def compute_shortest_paths_parallel (sp : WGraph → Nat → List (Nat × Nat))
    (src dst : List Int) (source : Int) :
    Except OnagerError ShortestPathsParallelResult :=
  if src.length ≠ dst.length then
    .error (.InvalidArgument "src and dst arrays must have same length")
  else if src = [] then
    .error (.InvalidArgument "Cannot compute on empty graph")
  else
    let ns := nodesOf src dst
    if source ∈ ns then
      let r := (sp (buildGraphU src dst) (extIdx ns source)).foldl
        (fun (a : ShortestPathsParallelResult) p =>
          match extOf? ns p.1 with
          | some e => { node_ids := a.node_ids ++ [e],
                        distances := a.distances ++ [(p.2 : ℚ)] }
          | none => a)
        { node_ids := [], distances := [] }
      .ok r
    else
      .error (.NodeNotFound source)

/-- `compute_components_parallel` (parallel.rs lines 221–265). -/
def compute_components_parallel (cp : WGraph → List (Nat × Nat))
    (src dst : List Int) : Except OnagerError ConnectedComponentsResult :=
  if src.length ≠ dst.length then
    .error (.InvalidArgument "src and dst arrays must have same length")
  else if src = [] then
    .error (.InvalidArgument "Cannot compute on empty graph")
  else
    let ns := nodesOf src dst
    let r := (cp (buildGraphU src dst)).foldl
      (fun (a : ConnectedComponentsResult) p =>
        match extOf? ns p.1 with
        | some e => { node_ids := a.node_ids ++ [e],
                      component_ids := a.component_ids ++ [Int.ofNat p.2] }
        | none => a)
      { node_ids := [], component_ids := [] }
    .ok r

/-- Result record of parallel clustering coefficients
(`ClusteringParallelResult`). -/
structure ClusteringParallelResult where
  node_ids : List Int
  coefficients : List ℚ
deriving DecidableEq

/-- `compute_clustering_parallel` (parallel.rs lines 274–317). -/
def compute_clustering_parallel (cl : WGraph → List (Nat × ℚ))
    (src dst : List Int) : Except OnagerError ClusteringParallelResult :=
  if src.length ≠ dst.length then
    .error (.InvalidArgument "src and dst arrays must have same length")
  else if src = [] then
    .error (.InvalidArgument "Cannot compute on empty graph")
  else
    let ns := nodesOf src dst
    let r := (cl (buildGraphU src dst)).foldl
      (fun (a : ClusteringParallelResult) p =>
        match extOf? ns p.1 with
        | some e => { node_ids := a.node_ids ++ [e],
                      coefficients := a.coefficients ++ [p.2] }
        | none => a)
      { node_ids := [], coefficients := [] }
    .ok r

/-- `compute_triangles_parallel` (parallel.rs lines 320–363). -/
def compute_triangles_parallel (tp : WGraph → List (Nat × Nat))
    (src dst : List Int) : Except OnagerError TriangleResult :=
  if src.length ≠ dst.length then
    .error (.InvalidArgument "src and dst arrays must have same length")
  else if src = [] then
    .error (.InvalidArgument "Cannot compute on empty graph")
  else
    let ns := nodesOf src dst
    .ok (flattenCounts ns (tp (buildGraphU src dst)))

/-! ### Personalized PageRank (`src/onager/src/algorithms/personalized.rs`) -/

/-- Result record of personalized PageRank
(`PersonalizedPageRankResult`). -/
structure PersonalizedPageRankResult where
  node_ids : List Int
  scores : List ℚ
deriving DecidableEq

/-- `compute_personalized_pagerank` (personalized.rs lines 26–104).  The
damping guard mirrors the source's `!(0.0..1.0).contains(&damping)`: the
Rust range `0.0..1.0` is HALF-OPEN, so the guard accepts `damping == 0.0`
even though its own error message promises the open interval `(0, 1)`.
The library call is the parameter `ppr`; its error becomes `GraphError`. -/
def compute_personalized_pagerank
    (ppr : WGraph → Option (List ℚ) → ℚ → ℚ → Nat → Except String (List ℚ))
    (src dst : List Int) (personalization : List (Int × ℚ)) (damping : ℚ)
    (max_iter : Nat) (tolerance : ℚ) :
    Except OnagerError PersonalizedPageRankResult :=
  if src.length ≠ dst.length then
    .error (.InvalidArgument "src and dst arrays must have same length")
  else if src = [] then
    .error (.InvalidArgument "Cannot compute on empty graph")
  else if ¬ (0 ≤ damping ∧ damping < 1) then
    .error (.InvalidArgument "damping must be in (0, 1)")
  else if max_iter = 0 then
    .error (.InvalidArgument "max_iter must be positive")
  else
    let ns := nodesOf src dst
    let pvec : Option (List ℚ) :=
      if personalization = [] then none
      else some (personalization.foldl
        (fun acc p => if p.1 ∈ ns then acc.set (extIdx ns p.1) p.2 else acc)
        (List.replicate ns.length 0))
    match ppr (buildGraphU src dst) pvec damping tolerance max_iter with
    | .error e => .error (.GraphError e)
    | .ok ranks =>
        let r := (ranks.zip (List.range ranks.length)).foldl
          (fun (a : PersonalizedPageRankResult) p =>
            match extOf? ns p.2 with
            | some e => { node_ids := a.node_ids ++ [e],
                          scores := a.scores ++ [p.1] }
            | none => a)
          { node_ids := [], scores := [] }
        .ok r

/-! ### Minimum spanning trees (`src/onager/src/algorithms/mst.rs`)

graphina's `prim_mst` / `kruskal_mst` are not part of this repository; both
are modelled from the spec (§4.5). -/

/-- Component label of `u` in a union-find label table. -/
def pfind (part : List Nat) (u : Nat) : Nat := part.getD u u

/-- Merge the component labelled `b` into the component labelled `a`. -/
def punion (part : List Nat) (a b : Nat) : List Nat :=
  part.map (fun x => if x = b then a else x)

/-- Edge indices in nondecreasing weight order (stable sort, so ties keep
insertion order). -/
def kruskalOrder (es : List (Nat × Nat × ℚ)) : List (Fin es.length) :=
  List.insertionSort (fun i j => (es.get i).2.2 ≤ (es.get j).2.2)
    (List.finRange es.length)

/-- One Kruskal step over an edge index: keep the edge iff its endpoints lie
in different components of the current forest (union-find by component
relabelling). -/
def kruskalFold (es : List (Nat × Nat × ℚ))
    (acc : List Nat × List (Fin es.length)) (i : Fin es.length) :
    List Nat × List (Fin es.length) :=
  let e := es.get i
  let cu := pfind acc.1 e.1
  let cv := pfind acc.1 e.2.1
  if cu = cv then acc
  else (punion acc.1 cu cv, acc.2 ++ [i])

/-- Modelled from the spec (§4.5): Kruskal — scan the edges in nondecreasing
weight order and keep each edge that joins two distinct components.  Returns
the selected edges and their total weight. -/
def kruskalSpec (n : Nat) (es : List (Nat × Nat × ℚ)) :
    List (Nat × Nat × ℚ) × ℚ :=
  let chosen := (((kruskalOrder es).foldl (kruskalFold es)
    (List.range n, [])).2).map (fun i => es.get i)
  (chosen, (chosen.map (fun e => e.2.2)).sum)

/-- An edge crosses the Prim frontier `inT` when exactly one endpoint is
inside (the `in_tree[u] != in_tree[v]` test of the scan). -/
def crossesT (es : List (Nat × Nat × ℚ)) (inT : List Nat)
    (i : Fin es.length) : Prop :=
  decide ((es.get i).1 ∈ inT) ≠ decide ((es.get i).2.1 ∈ inT)

/-- One step of the best-crossing-edge scan: keep the lighter of the current
best and the next crossing edge (first wins under ties). -/
def primPickStep (es : List (Nat × Nat × ℚ)) (inT : List Nat) :
    Option (Fin es.length) → Fin es.length → Option (Fin es.length)
  | none, i =>
      if decide ((es.get i).1 ∈ inT) ≠ decide ((es.get i).2.1 ∈ inT) then
        some i
      else none
  | some bi, i =>
      if decide ((es.get i).1 ∈ inT) ≠ decide ((es.get i).2.1 ∈ inT) then
        (if (es.get i).2.2 < (es.get bi).2.2 then some i else some bi)
      else some bi

/-- Index of a least-weight edge with exactly one endpoint inside the tree
(first such edge in insertion order under ties). -/
def primPick (es : List (Nat × Nat × ℚ)) (inT : List Nat) :
    Option (Fin es.length) :=
  (List.finRange es.length).foldl (primPickStep es inT) none

/-- Prim growth loop: repeatedly add the cheapest crossing edge, stopping
when none exists or the fuel (at most `n - 1` additions) is spent. -/
def primGo (es : List (Nat × Nat × ℚ)) :
    Nat → List Nat → List (Fin es.length) → List (Fin es.length)
  | 0, _, acc => acc
  | fuel + 1, inT, acc =>
      match primPick es inT with
      | none => acc
      | some i =>
          let e := es.get i
          primGo es fuel (inT ++ [if e.1 ∈ inT then e.2.1 else e.1])
            (acc ++ [i])

/-- Modelled from the spec (§4.5): Prim — grow a tree from the first
inserted node, always adding a least-weight crossing edge. -/
def primSpec (n : Nat) (es : List (Nat × Nat × ℚ)) :
    List (Nat × Nat × ℚ) × ℚ :=
  if n = 0 then ([], 0)
  else
    let chosen := (primGo es (n - 1) [0] []).map (fun i => es.get i)
    (chosen, (chosen.map (fun e => e.2.2)).sum)

/-! ### Abstract graph notions used to verify the MST models

Selections of edges are sets of indices into the edge list `es`; `linked`
is the undirected connectivity generated by a selection. -/

/-- One undirected adjacency step using an edge of the selection `S`. -/
def estep (es : List (Nat × Nat × ℚ)) (S : Finset (Fin es.length))
    (u v : Nat) : Prop :=
  ∃ i ∈ S, ((es.get i).1 = u ∧ (es.get i).2.1 = v)
    ∨ ((es.get i).1 = v ∧ (es.get i).2.1 = u)

/-- Undirected connectivity over the selection `S`. -/
def linked (es : List (Nat × Nat × ℚ)) (S : Finset (Fin es.length)) :
    Nat → Nat → Prop :=
  Relation.ReflTransGen (estep es S)

/-- Explicit walks: the list of edge indices traversed between two
vertices. -/
inductive WalkL (es : List (Nat × Nat × ℚ)) (S : Finset (Fin es.length)) :
    Nat → Nat → List (Fin es.length) → Prop where
  | nil (x : Nat) : WalkL es S x x []
  | cons {x y z : Nat} {l : List (Fin es.length)} (i : Fin es.length) :
      i ∈ S →
      ((es.get i).1 = x ∧ (es.get i).2.1 = y
        ∨ (es.get i).1 = y ∧ (es.get i).2.1 = x) →
      WalkL es S y z l → WalkL es S x z (i :: l)

/-- A selection is a forest when none of its edges is redundant. -/
def IsForest (es : List (Nat × Nat × ℚ)) (S : Finset (Fin es.length)) :
    Prop :=
  ∀ i ∈ S, ¬ linked es (S.erase i) (es.get i).1 (es.get i).2.1

/-- A selection spans when it realizes every connection of the whole edge
list. -/
def Spans (es : List (Nat × Nat × ℚ)) (S : Finset (Fin es.length)) : Prop :=
  ∀ u v, linked es Finset.univ u v → linked es S u v

/-- Total weight of a selection. -/
def weightF (es : List (Nat × Nat × ℚ)) (S : Finset (Fin es.length)) : ℚ :=
  ∑ i in S, (es.get i).2.2

/-- A minimum-weight spanning forest. -/
def MinBasis (es : List (Nat × Nat × ℚ)) (S : Finset (Fin es.length)) :
    Prop :=
  IsForest es S ∧ Spans es S
    ∧ ∀ T, IsForest es T → Spans es T → weightF es S ≤ weightF es T

/-- Least vertex connected to `v` under the selection `S` (a canonical
representative of `v`'s component). -/
noncomputable def classRep (es : List (Nat × Nat × ℚ))
    (S : Finset (Fin es.length)) (v : Nat) : ℕ :=
  sInf {u | linked es S u v}

/-- Number of components of the selection `S` on the vertices `0, …, n-1`,
counted by their canonical representatives. -/
noncomputable def ncomp (es : List (Nat × Nat × ℚ)) (n : Nat)
    (S : Finset (Fin es.length)) : ℕ :=
  ((Finset.range n).filter (fun v => classRep es S v = v)).card

/-- All edge endpoints lie among the vertices `0, …, n-1`. -/
def EdgesOk (n : Nat) (es : List (Nat × Nat × ℚ)) : Prop :=
  ∀ i : Fin es.length, (es.get i).1 < n ∧ (es.get i).2.1 < n

/-- The graph on vertices `0, …, n-1` is connected: every vertex reaches the
first-inserted node `0` via the full edge list. -/
def GraphConnected (n : Nat) (es : List (Nat × Nat × ℚ)) : Prop :=
  ∀ v, v < n → linked es Finset.univ v 0

/-- Result record of MST computation (`MstResult`). -/
structure MstResult where
  src_nodes : List Int
  dst_nodes : List Int
  weights : List ℚ
  total_weight : ℚ
deriving DecidableEq

/-- One step of the result-assembly loop of the two MST wrappers (`for edge
in mst_edges`): emit the edge when both reverse-map lookups succeed. -/
def mstStep (ns : List Int) (a : MstResult) (e : Nat × Nat × ℚ) : MstResult :=
  match extOf? ns e.1, extOf? ns e.2.1 with
  | some s, some d =>
      { a with src_nodes := a.src_nodes ++ [s],
               dst_nodes := a.dst_nodes ++ [d],
               weights := a.weights ++ [e.2.2] }
  | _, _ => a

/-- Result assembly shared by the two MST wrappers. -/
def mstAssemble (ns : List Int) (r : List (Nat × Nat × ℚ) × ℚ) : MstResult :=
  r.1.foldl (mstStep ns)
    { src_nodes := [], dst_nodes := [], weights := [], total_weight := r.2 }

/-- The rational `1.5` (= `3/2`) of the spec's MST example, given in reduced
normal form so that the example instance evaluates by kernel reduction. -/
def threeHalves : ℚ := Rat.mk' 3 2 (by norm_num) (by norm_num)

/-- `compute_prim_mst` (mst.rs lines 21–71). -/
def compute_prim_mst (src dst : List Int) (weights : List ℚ) :
    Except OnagerError MstResult :=
  if src.length ≠ dst.length ∨ src.length ≠ weights.length then
    .error (.InvalidArgument "src, dst, and weights arrays must have same length")
  else if src = [] then
    .error (.InvalidArgument "Cannot compute on empty graph")
  else
    let ns := nodesOf src dst
    let g := buildGraph src dst (fun i => weights.getD i 0)
    .ok (mstAssemble ns (primSpec ns.length g.edges))

/-- `compute_kruskal_mst` (mst.rs lines 74–124). -/
def compute_kruskal_mst (src dst : List Int) (weights : List ℚ) :
    Except OnagerError MstResult :=
  if src.length ≠ dst.length ∨ src.length ≠ weights.length then
    .error (.InvalidArgument "src, dst, and weights arrays must have same length")
  else if src = [] then
    .error (.InvalidArgument "Cannot compute on empty graph")
  else
    let ns := nodesOf src dst
    let g := buildGraph src dst (fun i => weights.getD i 0)
    .ok (mstAssemble ns (kruskalSpec ns.length g.edges))

/-! ### Generators (`src/onager/src/algorithms/generators.rs`)

graphina's generators are not part of this repository.  They are modelled
from the spec (§4.8); a 64-bit LCG stands in for the library's seeded RNG —
only the facts that the stream is a pure function of the seed and drives all
random choices matter here. -/

/-- Modelled from the spec: one step of the stand-in seeded RNG. -/
def lcgNext (s : Nat) : Nat :=
  (6364136223846793005 * s + 1442695040888963407) % (2 ^ 64)

/-- A draw in `[0, 1)` from an RNG state. -/
def lcgUnit (s : Nat) : ℚ :=
  (((s / 2 ^ 32) % 2 ^ 32 : Nat) : ℚ) / ((2 ^ 32 : Nat) : ℚ)

/-- Result record of graph generation (`GeneratorResult`). -/
structure GeneratorResult where
  src : List Int
  dst : List Int
deriving DecidableEq

/-- All unordered pairs `i < j` of `n` nodes, lexicographically. -/
def allPairs (n : Nat) : List (Nat × Nat) :=
  (List.range n).foldl
    (fun acc i => acc ++ ((List.range n).filter (fun j => i < j)).map
      (fun j => (i, j)))
    []

/-- `generate_erdos_renyi` (generators.rs lines 17–37).  Guards from the
source; the generation itself is modelled from the spec: each unordered pair
is included independently with probability `p`, driven by the seeded RNG. -/
def generate_erdos_renyi (n : Nat) (p : ℚ) (seed : Nat) :
    Except OnagerError GeneratorResult :=
  if n = 0 then .error (.InvalidArgument "n must be > 0")
  else if ¬ (0 ≤ p ∧ p ≤ 1) then
    .error (.InvalidArgument "p must be in [0, 1]")
  else
    let r := (allPairs n).foldl
      (fun (acc : Nat × GeneratorResult) e =>
        let s2 := lcgNext acc.1
        if lcgUnit s2 < p then
          (s2, { src := acc.2.src ++ [Int.ofNat e.1],
                 dst := acc.2.dst ++ [Int.ofNat e.2] })
        else (s2, acc.2))
      (seed, { src := [], dst := [] })
    .ok r.2

/-- `generate_barabasi_albert` (generators.rs lines 40–60).  Guards from the
source; the growth is modelled from the spec: a connected core (a path on
the first `m` nodes), then each new node attaches `m` edges to targets drawn
from a degree-weighted pool by the seeded RNG. -/
def generate_barabasi_albert (n m : Nat) (seed : Nat) :
    Except OnagerError GeneratorResult :=
  if n = 0 ∨ m = 0 then .error (.InvalidArgument "n and m must be > 0")
  else if m > n then .error (.InvalidArgument "m must be <= n")
  else
    let core := ((List.range m).filter (fun i => i + 1 < m)).map
      (fun i => (i, i + 1))
    let grow := (List.range n).filter (fun v => m ≤ v)
    let r := grow.foldl
      (fun (acc : Nat × List (Nat × Nat)) v =>
        (List.range m).foldl
          (fun (a : Nat × List (Nat × Nat)) _ =>
            let s2 := lcgNext a.1
            let pool := a.2.foldl (fun q e => q ++ [e.1, e.2]) []
              ++ (List.range v)
            let t := pool.getD (s2 % pool.length) 0
            (s2, a.2 ++ [(t, v)]))
          acc)
      (seed, core)
    .ok { src := r.2.map (fun e => Int.ofNat e.1),
          dst := r.2.map (fun e => Int.ofNat e.2) }

/-- `generate_watts_strogatz` (generators.rs lines 63–93).  Guards from the
source; the construction is modelled from the spec: a ring lattice of degree
`k`, each edge rewired with probability `beta` by the seeded RNG. -/
def generate_watts_strogatz (n k : Nat) (beta : ℚ) (seed : Nat) :
    Except OnagerError GeneratorResult :=
  if n = 0 then .error (.InvalidArgument "n must be > 0")
  else if ¬ (k % 2 = 0) ∨ k ≥ n then
    .error (.InvalidArgument "k must be even and < n")
  else if ¬ (0 ≤ beta ∧ beta ≤ 1) then
    .error (.InvalidArgument "beta must be in [0, 1]")
  else
    let ring := (List.range n).foldl
      (fun acc i => acc ++ ((List.range (k / 2)).map
        (fun j => (i, (i + j + 1) % n))))
      []
    let r := ring.foldl
      (fun (acc : Nat × List (Nat × Nat)) e =>
        let s2 := lcgNext acc.1
        if lcgUnit s2 < beta then
          let s3 := lcgNext s2
          let t := s3 % n
          if t = e.1 then (s3, acc.2 ++ [e]) else (s3, acc.2 ++ [(e.1, t)])
        else (s2, acc.2 ++ [e]))
      (seed, [])
    .ok { src := r.2.map (fun e => Int.ofNat e.1),
          dst := r.2.map (fun e => Int.ofNat e.2) }

/-- Sum of a per-node score over the internal indices `0, …, n-1`. -/
def sumRange (n : Nat) (f : Nat → ℚ) : ℚ :=
  ((List.range n).map f).sum

/-! ## Basic lemmas about the embedding -/

lemma mem_insertNode {v : Int} {acc : List Int} {a : Int} :
    v ∈ insertNode acc a ↔ v ∈ acc ∨ v = a := by
  unfold insertNode
  by_cases h : a ∈ acc
  · simp only [if_pos h]
    constructor
    · exact Or.inl
    · rintro (hv | rfl)
      · exact hv
      · exact h
  · simp [if_neg h]

lemma mem_foldl_insertNode (l : List Int) (acc : List Int) (v : Int) :
    v ∈ l.foldl insertNode acc ↔ v ∈ acc ∨ v ∈ l := by
  induction l generalizing acc with
  | nil => simp
  | cons a t ih =>
      simp only [List.foldl_cons, ih, mem_insertNode, List.mem_cons]
      tauto

lemma mem_nodesOf {v : Int} {src dst : List Int} :
    v ∈ nodesOf src dst ↔ v ∈ src ∨ v ∈ dst := by
  simp [nodesOf, mem_foldl_insertNode]

lemma nodesOf_ne_nil {src dst : List Int} (h : src ≠ []) :
    nodesOf src dst ≠ [] := by
  obtain ⟨a, t, rfl⟩ := List.exists_cons_of_ne_nil h
  exact List.ne_nil_of_mem (mem_nodesOf.mpr (Or.inl (List.mem_cons_self a t)))

lemma length_nodesOf_pos {src dst : List Int} (h : src ≠ []) :
    0 < (nodesOf src dst).length :=
  List.length_pos.mpr (nodesOf_ne_nil h)

lemma extIdx_lt_length {ns : List Int} {v : Int} (h : v ∈ ns) :
    extIdx ns v < ns.length :=
  List.indexOf_lt_length.mpr h

lemma getD_mem {l : List Int} {i : Nat} (h : i < l.length) :
    l.getD i 0 ∈ l := by
  rw [List.getD_eq_getElem l 0 h]; exact List.getElem_mem h

/-- Every adjacency pair produced from aligned edge arrays has both
endpoints inside the internal index range. -/
lemma orientPairs_bound {src dst : List Int} {wf : Nat → ℚ} {dir : Bool}
    (hlen : src.length = dst.length) :
    ∀ e ∈ orientPairs dir
      (edgePairs (buildEdges (nodesOf src dst) src dst wf)),
      e.1 < (nodesOf src dst).length ∧ e.2 < (nodesOf src dst).length := by
  have base : ∀ e ∈ edgePairs (buildEdges (nodesOf src dst) src dst wf),
      e.1 < (nodesOf src dst).length ∧ e.2 < (nodesOf src dst).length := by
    intro e he
    simp only [edgePairs, buildEdges, List.map_map, List.mem_map,
      List.mem_range] at he
    obtain ⟨i, hi, rfl⟩ := he
    constructor
    · exact extIdx_lt_length
        (mem_nodesOf.mpr (Or.inl (getD_mem hi)))
    · exact extIdx_lt_length
        (mem_nodesOf.mpr (Or.inr (getD_mem (hlen ▸ hi))))
  intro e he
  unfold orientPairs at he
  by_cases hd : dir
  · rw [if_pos hd] at he
    exact base e he
  · rw [if_neg hd] at he
    rcases List.mem_append.mp he with h1 | h2
    · exact base e h1
    · obtain ⟨f, hf, rfl⟩ := List.mem_map.mp h2
      exact ⟨(base f hf).2, (base f hf).1⟩

/-! ## List-sum lemmas used by the PageRank invariant -/

lemma sum_map_add (l : List Nat) (f g : Nat → ℚ) :
    (l.map (fun x => f x + g x)).sum = (l.map f).sum + (l.map g).sum := by
  induction l with
  | nil => simp
  | cons a t ih => simp only [List.map_cons, List.sum_cons, ih]; ring

lemma sum_range_ite_eq {n k : Nat} (c : Nat → ℚ) (hk : k < n) :
    ((List.range n).map (fun v => if k = v then c v else 0)).sum = c k := by
  induction n with
  | zero => omega
  | succ m ih =>
      rw [List.range_succ, List.map_append, List.sum_append]
      by_cases h : k = m
      · subst h
        have : ∀ v ∈ List.range k, (if k = v then c v else 0) = 0 := by
          intro v hv
          rw [if_neg]
          intro hkv
          exact absurd (List.mem_range.mp hv) (by omega)
        rw [List.map_congr_left this]
        simp
      · have hk2 : k < m := by omega
        rw [ih hk2]
        simp [h]

lemma sum_swap (l : List Nat) (ps : List (Nat × Nat))
    (F : Nat × Nat → Nat → ℚ) :
    (l.map (fun v => (ps.map (fun e => F e v)).sum)).sum
      = (ps.map (fun e => (l.map (fun v => F e v)).sum)).sum := by
  induction ps with
  | nil => simp
  | cons e t ih =>
      simp only [List.map_cons, List.sum_cons]
      rw [← ih, ← sum_map_add]

lemma sum_group_by_fst {n : Nat} (l : List (Nat × Nat)) (g : Nat → ℚ)
    (h : ∀ e ∈ l, e.1 < n) :
    (l.map (fun e => g e.1)).sum
      = ((List.range n).map (fun u => ((outdeg l u : ℚ) * g u))).sum := by
  induction l with
  | nil => simp [outdeg]
  | cons e t ih =>
      have he : e.1 < n := h e (List.mem_cons_self e t)
      have ht : ∀ f ∈ t, f.1 < n := fun f hf => h f (List.mem_cons_of_mem e hf)
      simp only [List.map_cons, List.sum_cons, ih ht]
      have hstep : ∀ u ∈ List.range n,
          (outdeg (e :: t) u : ℚ) * g u
            = (if e.1 = u then g u else 0) + (outdeg t u : ℚ) * g u := by
        intro u _
        by_cases hu : e.1 = u
        · rw [if_pos hu]
          have hcnt : outdeg (e :: t) u = outdeg t u + 1 := by
            unfold outdeg
            simp [List.filter_cons, hu]
          rw [hcnt]
          push_cast
          ring
        · rw [if_neg hu]
          have hcnt : outdeg (e :: t) u = outdeg t u := by
            unfold outdeg
            simp [List.filter_cons, hu]
          rw [hcnt, zero_add]
      rw [List.map_congr_left hstep, sum_map_add, sum_range_ite_eq g he]

lemma sum_range_prMass {n : Nat} (ps : List (Nat × Nat)) (r : Nat → ℚ)
    (hb : ∀ e ∈ ps, e.1 < n ∧ e.2 < n) :
    sumRange n (prMass ps r)
      = ((List.range n).map
          (fun u => (outdeg ps u : ℚ) * (r u / (outdeg ps u : ℚ)))).sum := by
  unfold sumRange prMass
  rw [sum_swap]
  have h1 : ∀ e ∈ ps,
      ((List.range n).map (fun v => if e.2 = v then r e.1 / (outdeg ps e.1 : ℚ) else 0)).sum
        = r e.1 / (outdeg ps e.1 : ℚ) := by
    intro e he
    exact sum_range_ite_eq (fun _ => r e.1 / (outdeg ps e.1 : ℚ)) (hb e he).2
  rw [List.map_congr_left h1]
  exact sum_group_by_fst ps (fun u => r u / (outdeg ps u : ℚ))
    (fun e he => (hb e he).1)

/-- Mass conservation of one power-iteration step: the new total is
`(1 - d) + d * (old total)`; in particular a unit total is preserved. -/
lemma sum_range_prStep {n : Nat} (ps : List (Nat × Nat)) (d : ℚ)
    (r : Nat → ℚ) (hn : n ≠ 0) (hb : ∀ e ∈ ps, e.1 < n ∧ e.2 < n) :
    sumRange n (prStep n ps d r) = (1 - d) + d * sumRange n r := by
  have hnQ : (n : ℚ) ≠ 0 := Nat.cast_ne_zero.mpr hn
  unfold prStep
  unfold sumRange
  rw [show (fun v => (1 - d) / (n : ℚ) + d * prMass ps r v
        + d * danglingMass n ps r / (n : ℚ))
      = (fun v => ((1 - d) / (n : ℚ) + d * prMass ps r v)
        + d * danglingMass n ps r / (n : ℚ)) from rfl]
  rw [sum_map_add, sum_map_add]
  have hconst : ∀ c : ℚ, ((List.range n).map (fun _ => c)).sum = n * c := by
    intro c; simp [List.map_const]
  rw [hconst, hconst]
  have hM := sum_range_prMass ps r hb
  unfold sumRange at hM
  rw [List.sum_map_mul_left, hM]
  have key : ((List.range n).map
        (fun u => (outdeg ps u : ℚ) * (r u / (outdeg ps u : ℚ)))).sum
      + danglingMass n ps r
      = ((List.range n).map r).sum := by
    unfold danglingMass
    rw [← sum_map_add]
    apply congrArg
    apply List.map_congr_left
    intro u _
    by_cases hu : outdeg ps u = 0
    · simp [hu]
    · have : ((outdeg ps u : ℚ)) ≠ 0 := Nat.cast_ne_zero.mpr hu
      rw [if_neg hu, mul_comm, div_mul_cancel₀ _ this, add_zero]
  have e1 : (n : ℚ) * ((1 - d) / (n : ℚ)) = 1 - d := by
    field_simp
  have e2 : (n : ℚ) * (d * danglingMass n ps r / (n : ℚ))
      = d * danglingMass n ps r := by
    field_simp
  rw [e1, e2]
  have := congrArg (fun x => d * x) key
  simp only [mul_add] at this
  linarith [this]

/-- The iteration loop preserves a unit total, with or without the early
convergence exit. -/
lemma sum_range_prRun {n : Nat} (ps : List (Nat × Nat)) (d tol : ℚ)
    (hn : n ≠ 0) (hb : ∀ e ∈ ps, e.1 < n ∧ e.2 < n) :
    ∀ (k : Nat) (r : Nat → ℚ), sumRange n r = 1
      → sumRange n (prRun n ps d tol k r) = 1 := by
  intro k
  induction k with
  | zero => intro r hr; simpa [prRun] using hr
  | succ m ih =>
      intro r hr
      have hs : sumRange n (prStep n ps d r) = 1 := by
        rw [sum_range_prStep ps d r hn hb, hr]; ring
      rw [prRun]
      by_cases hc : prDelta n r (prStep n ps d r) < tol
      · simpa [hc] using hs
      · simpa [hc] using ih (prStep n ps d r) hs

/-- The PageRank model always returns a unit-total rank vector on a
non-empty node set. -/
lemma sum_range_pagerankSpec {n : Nat} (ps : List (Nat × Nat)) (d tol : ℚ)
    (iters : Nat) (hn : n ≠ 0) (hb : ∀ e ∈ ps, e.1 < n ∧ e.2 < n) :
    sumRange n (pagerankSpec n ps d iters tol) = 1 := by
  unfold pagerankSpec
  apply sum_range_prRun ps d tol hn hb
  have hnQ : (n : ℚ) ≠ 0 := Nat.cast_ne_zero.mpr hn
  unfold sumRange
  simp [List.map_const]
  field_simp

/-- The adjacency pairs do not depend on the edge-weight function: only the
endpoint indices survive the projection. -/
lemma edgePairs_buildEdges (ns : List Int) (src dst : List Int)
    (wf : Nat → ℚ) :
    edgePairs (buildEdges ns src dst wf)
      = (List.range src.length).map
          (fun i => (extIdx ns (src.getD i 0), extIdx ns (dst.getD i 0))) := by
  simp [edgePairs, buildEdges, List.map_map, Function.comp]

/-! ## Claim theorems -/

/-- C10: the sequential `compute_pagerank` never reads its weights argument
(the parameter is `_weights` and every edge is inserted with weight `1.0`),
so any two weights arrays produce identical `node_ids` and `ranks`. -/
theorem pagerank_output_independent_of_weights (src dst : List Int)
    (w1 w2 : List ℚ) (d : ℚ) (iters : Nat) (dir : Bool) :
    compute_pagerank src dst w1 d iters dir
      = compute_pagerank src dst w2 d iters dir := rfl

/-- C3 (counterexample): `compute_pagerank` accepts the empty edge list and
returns an empty rank vector, whose sum `0` is not within `0.01` of `1.0`. -/
theorem pagerank_sum_fails_on_empty :
    compute_pagerank [] [] [] (17/20) 100 false
        = .ok { node_ids := [], ranks := [] }
    ∧ ¬ (|(({ node_ids := [], ranks := [] } : PageRankResult).ranks.sum) - 1|
          ≤ 1/100) := by
  constructor
  · rfl
  · norm_num

/-- C3 (amended): on every non-empty accepted edge list (equal-length `src`
and `dst`), for every weights array, damping factor, iteration budget and
directedness flag, `compute_pagerank` succeeds and its ranks sum to exactly
`1`, hence to `1.0` within the `0.01` tolerance. -/
theorem pagerank_ranks_sum_one (src dst : List Int) (w : List ℚ) (d : ℚ)
    (iters : Nat) (dir : Bool) (hlen : src.length = dst.length)
    (hne : src ≠ []) :
    ∃ r, compute_pagerank src dst w d iters dir = .ok r
      ∧ r.ranks.sum = 1 ∧ |r.ranks.sum - 1| ≤ 1/100 := by
  have hn : (nodesOf src dst).length ≠ 0 := (length_nodesOf_pos hne).ne'
  have hres : compute_pagerank src dst w d iters dir = .ok
      { node_ids := nodesOf src dst,
        ranks := (List.range (nodesOf src dst).length).map
          (pagerankSpec (nodesOf src dst).length
            (orientPairs dir (edgePairs (buildGraphU src dst).edges))
            d iters (1/1000000)) } := by
    unfold compute_pagerank
    rw [if_neg (by simp [hlen])]
  refine ⟨_, hres, ?_, ?_⟩
  · have hb := @orientPairs_bound src dst (fun _ => 1) dir hlen
    have := @sum_range_pagerankSpec (nodesOf src dst).length
      (orientPairs dir (edgePairs (buildGraphU src dst).edges))
      d (1/1000000) iters hn (by simpa [buildGraphU, buildGraph] using hb)
    simpa [sumRange] using this
  · have hb := @orientPairs_bound src dst (fun _ => 1) dir hlen
    have := @sum_range_pagerankSpec (nodesOf src dst).length
      (orientPairs dir (edgePairs (buildGraphU src dst).edges))
      d (1/1000000) iters hn (by simpa [buildGraphU, buildGraph] using hb)
    rw [show ((List.range (nodesOf src dst).length).map
          (pagerankSpec (nodesOf src dst).length
            (orientPairs dir (edgePairs (buildGraphU src dst).edges))
            d iters (1/1000000))).sum
        = sumRange (nodesOf src dst).length
            (pagerankSpec (nodesOf src dst).length
              (orientPairs dir (edgePairs (buildGraphU src dst).edges))
              d iters (1/1000000)) from rfl, this]
    norm_num

/-- Witness for `pagerank_ranks_sum_one` at the single edge `1 → 2`. -/
theorem pagerank_ranks_sum_one_witness :
    ∃ r, compute_pagerank [1] [2] [] (17/20) 5 false = .ok r
      ∧ r.ranks.sum = 1 ∧ |r.ranks.sum - 1| ≤ 1/100 :=
  pagerank_ranks_sum_one [1] [2] [] (17/20) 5 false (by decide) (by decide)

/-- C1 (counterexample): the sequential and parallel PageRank entry points
do not accept the same inputs.  On the empty edge list the sequential one
succeeds while the parallel one rejects with `InvalidArgument`; on a
mismatched weights array the sequential one silently succeeds (it ignores
weights) while the parallel one rejects. -/
theorem pagerank_parallel_diverges :
    compute_pagerank [] [] [] (17/20) 100 false
        = .ok { node_ids := [], ranks := [] }
    ∧ compute_pagerank_parallel [] [] [] (17/20) 100 false
        = .error (.InvalidArgument "Cannot compute on empty graph")
    ∧ compute_pagerank [1] [2] [1, 1] (17/20) 100 false
        = compute_pagerank [1] [2] [] (17/20) 100 false
    ∧ compute_pagerank_parallel [1] [2] [1, 1] (17/20) 100 false
        = .error (.InvalidArgument "weights must be empty or same length as edges") := by
  refine ⟨rfl, ?_, rfl, ?_⟩
  · rfl
  · rfl

/-- C1 (amended): whenever the edge list is non-empty and the weights array
is either empty or aligned with it, the parallel entry point returns exactly
the sequential result — same node ids, same ranks, same errors — for every
damping factor, iteration count and directedness flag. -/
theorem pagerank_parallel_refines (src dst : List Int) (w : List ℚ) (d : ℚ)
    (iters : Nat) (dir : Bool) (hne : src ≠ [] ∨ dst ≠ [])
    (hw : w = [] ∨ w.length = src.length) :
    compute_pagerank_parallel src dst w d iters dir
      = compute_pagerank src dst w d iters dir := by
  by_cases hl : src.length = dst.length
  · have hsrc : src ≠ [] := by
      rcases hne with h | h
      · exact h
      · intro hs
        subst hs
        exact h (List.eq_nil_of_length_eq_zero (by simpa using hl.symm))
    have hwguard : ¬ (w ≠ [] ∧ w.length ≠ src.length) := by
      rcases hw with h | h
      · simp [h]
      · simp [h]
    unfold compute_pagerank_parallel compute_pagerank
    rw [if_neg (by simp [hl]), if_neg hwguard, if_neg hsrc,
      if_neg (by simp [hl])]
    have hpairs : edgePairs (buildGraph src dst
          (fun i => if w = [] then 1 else w.getD i 0)).edges
        = edgePairs (buildGraphU src dst).edges := by
      simp [buildGraph, buildGraphU, edgePairs_buildEdges]
    simp only [pagerank_parallelSpec, hpairs]
  · unfold compute_pagerank_parallel compute_pagerank
    rw [if_pos hl, if_pos hl]

/-- Witness for `pagerank_parallel_refines` at the single edge `1 → 2`. -/
theorem pagerank_parallel_refines_witness :
    compute_pagerank_parallel [1] [2] [] (17/20) 5 false
      = compute_pagerank [1] [2] [] (17/20) 5 false :=
  pagerank_parallel_refines [1] [2] [] (17/20) 5 false
    (Or.inl (by decide)) (Or.inl rfl)

/-- C4 (counterexample): with source `5` absent from the single edge
`1 → 2`, both `compute_bfs` and `compute_dfs` fail with `InvalidArgument`
("Source node 5 not found"), not with the `NodeNotFound` variant. -/
theorem bfs_dfs_missing_source_counterexample :
    compute_bfs [1] [2] 5
        = .error (.InvalidArgument "Source node 5 not found")
    ∧ isNodeNotFound (compute_bfs [1] [2] 5) = false
    ∧ compute_dfs [1] [2] 5
        = .error (.InvalidArgument "Source node 5 not found")
    ∧ isNodeNotFound (compute_dfs [1] [2] 5) = false := by
  refine ⟨?_, ?_, ?_, ?_⟩ <;> rfl

/-- C4 (amended): for every non-empty aligned edge list and every source id
occurring in neither array, `compute_bfs` and `compute_dfs` fail with an
`InvalidArgument` error whose message names the missing source (the
`NodeNotFound` variant is not used by these two entry points). -/
theorem bfs_dfs_missing_source_invalid_argument (src dst : List Int)
    (s : Int) (hlen : src.length = dst.length) (hne : src ≠ [])
    (hs1 : s ∉ src) (hs2 : s ∉ dst) :
    compute_bfs src dst s
        = .error (.InvalidArgument ("Source node " ++ toString s ++ " not found"))
    ∧ compute_dfs src dst s
        = .error (.InvalidArgument ("Source node " ++ toString s ++ " not found")) := by
  have hns : s ∉ nodesOf src dst := by
    rw [mem_nodesOf]
    rintro (h | h)
    · exact hs1 h
    · exact hs2 h
  constructor
  · simp [compute_bfs, hlen, hne, hns]
  · simp [compute_dfs, hlen, hne, hns]

/-- Witness for `bfs_dfs_missing_source_invalid_argument` on the path
`1 → 2 → 3` with the absent source `9`. -/
theorem bfs_dfs_missing_source_invalid_argument_witness :
    compute_bfs [1, 2] [2, 3] 9
        = .error (.InvalidArgument ("Source node " ++ toString (9 : Int) ++ " not found"))
    ∧ compute_dfs [1, 2] [2, 3] 9
        = .error (.InvalidArgument ("Source node " ++ toString (9 : Int) ++ " not found")) :=
  bfs_dfs_missing_source_invalid_argument [1, 2] [2, 3] 9
    (by decide) (by decide) (by decide) (by decide)

/-- C5: the damping guard of `compute_personalized_pagerank` mirrors the
source's `!(0.0..1.0).contains(&damping)`, a HALF-OPEN range, so
`damping = 0` passes the guard: whatever the library then does, the call
never returns `InvalidArgument` (it is `Ok` or a mapped `GraphError`),
contradicting the claim, the spec, and the guard's own message
"damping must be in (0, 1)".  The boundary `damping = 1` and `max_iter = 0`
are rejected as claimed. -/
theorem personalized_pagerank_damping_zero_accepted :
    (∀ ppr, isInvalidArg
        (compute_personalized_pagerank ppr [1] [2] [] 0 100 (1/1000000))
          = false)
    ∧ (∀ ppr, compute_personalized_pagerank ppr [1] [2] [] 1 100 (1/1000000)
        = .error (.InvalidArgument "damping must be in (0, 1)"))
    ∧ (∀ ppr, compute_personalized_pagerank ppr [1] [2] [] (17/20) 0 (1/1000000)
        = .error (.InvalidArgument "max_iter must be positive")) := by
  refine ⟨?_, ?_, ?_⟩
  · intro ppr
    simp only [compute_personalized_pagerank]
    rw [if_neg (by decide), if_neg (by decide), if_neg (by norm_num),
      if_neg (by decide)]
    split <;> rfl
  · intro ppr
    simp only [compute_personalized_pagerank]
    rw [if_neg (by decide), if_neg (by decide), if_pos (by norm_num)]
  · intro ppr
    simp only [compute_personalized_pagerank]
    rw [if_neg (by decide), if_neg (by decide), if_neg (by norm_num)]
    simp

/-- C7: all six community-detection entry points reject the empty edge list
with `InvalidArgument`, for every behaviour of the underlying library
algorithms and every parameter value. -/
theorem community_empty_invalid_argument
    (lv : WGraph → Option Nat → Except String (List (List Nat)))
    (cc : WGraph → List (List Nat))
    (lpr : WGraph → Nat → Option Nat → Except String (List Nat))
    (gn : WGraph → Nat → Except String (List (List Nat)))
    (sc : WGraph → Nat → Option Nat → Except String (List (List Nat)))
    (im : WGraph → Nat → Option Nat → Except String (List Nat))
    (seed : Option Nat) (tc : Int) (k mi : Nat) :
    compute_louvain lv [] [] seed
        = .error (.InvalidArgument "Cannot compute on empty graph")
    ∧ compute_connected_components cc [] []
        = .error (.InvalidArgument "Cannot compute on empty graph")
    ∧ compute_label_propagation lpr [] []
        = .error (.InvalidArgument "Cannot compute on empty graph")
    ∧ compute_girvan_newman gn [] [] tc
        = .error (.InvalidArgument "Cannot compute on empty graph")
    ∧ compute_spectral_clustering sc [] [] k seed
        = .error (.InvalidArgument "Cannot compute on empty graph")
    ∧ compute_infomap im [] [] mi seed
        = .error (.InvalidArgument "Cannot compute on empty graph") :=
  ⟨rfl, rfl, rfl, rfl, rfl, rfl⟩

/-- C8: on the empty edge list the three subset-selection approximation
entry points return an empty node set without error, for every behaviour of
the underlying library selection, while `compute_tsp` returns an error. -/
theorem approximation_empty_policy
    (selC selI selV : WGraph → List Nat)
    (tspI : WGraph → Except String (List Nat × ℚ)) :
    compute_max_clique selC [] [] = .ok { node_ids := [] }
    ∧ compute_independent_set selI [] [] = .ok { node_ids := [] }
    ∧ compute_vertex_cover selV [] [] = .ok { node_ids := [] }
    ∧ compute_tsp tspI [] [] []
        = .error (.InvalidArgument "Cannot compute TSP on empty graph")
    ∧ isErr (compute_tsp tspI [] [] []) = true :=
  ⟨rfl, rfl, rfl, rfl, rfl⟩

/-- C9: the three generators are pure functions of their arguments — the
seed is the only entropy source — so two calls with identical parameters and
the same seed produce identical `src` and `dst` arrays. -/
theorem generators_deterministic (n : Nat) (p : ℚ) (seed m k : Nat)
    (beta : ℚ) :
    generate_erdos_renyi n p seed = generate_erdos_renyi n p seed
    ∧ generate_barabasi_albert n m seed = generate_barabasi_albert n m seed
    ∧ generate_watts_strogatz n k beta seed
        = generate_watts_strogatz n k beta seed :=
  ⟨rfl, rfl, rfl⟩

/-- C6: every array-based algorithm entry point rejects `len(src) ≠
len(dst)` with `InvalidArgument`, and every entry point that requires an
aligned weights array likewise rejects `len(weights) ≠ len(src)` — for all
parameter values and all behaviours of the underlying library calls.  The
conjuncts cover, in order: the six traversal entry points (with the
weights-mismatch cases of Bellman-Ford and Floyd-Warshall), the eleven
centrality entry points, the six community entry points, the four
link-prediction entry points, the eight metric entry points, the two MST
entry points with their weights-mismatch cases, the six parallel entry
points, personalized PageRank, the three subgraph entry points, and the four
approximation entry points with the TSP weights-mismatch case. -/
theorem length_mismatch_invalid_argument :
    (∀ dij (src dst : List Int) (s : Int), src.length ≠ dst.length →
      compute_dijkstra dij src dst s
        = .error (.InvalidArgument "src and dst arrays must have same length"))
    ∧ (∀ (src dst : List Int) (s : Int), src.length ≠ dst.length →
      compute_bfs src dst s
        = .error (.InvalidArgument "src and dst arrays must have same length"))
    ∧ (∀ (src dst : List Int) (s : Int), src.length ≠ dst.length →
      compute_dfs src dst s
        = .error (.InvalidArgument "src and dst arrays must have same length"))
    ∧ (∀ dij (src dst : List Int) (s t : Int), src.length ≠ dst.length →
      compute_shortest_distance dij src dst s t
        = .error (.InvalidArgument "src and dst arrays must have same length"))
    ∧ (∀ bf (src dst : List Int) (w : List ℚ) (s : Int),
        src.length ≠ dst.length →
      compute_bellman_ford bf src dst w s
        = .error (.InvalidArgument "src, dst, and weights arrays must have same length"))
    ∧ (∀ bf (src dst : List Int) (w : List ℚ) (s : Int),
        src.length ≠ w.length →
      compute_bellman_ford bf src dst w s
        = .error (.InvalidArgument "src, dst, and weights arrays must have same length"))
    ∧ (∀ fw (src dst : List Int) (w : List ℚ), src.length ≠ dst.length →
      compute_floyd_warshall fw src dst w
        = .error (.InvalidArgument "src, dst, and weights arrays must have same length"))
    ∧ (∀ fw (src dst : List Int) (w : List ℚ), src.length ≠ w.length →
      compute_floyd_warshall fw src dst w
        = .error (.InvalidArgument "src, dst, and weights arrays must have same length"))
    ∧ (∀ (src dst : List Int) (w : List ℚ) (d : ℚ) (it : Nat) (dir : Bool),
        src.length ≠ dst.length →
      compute_pagerank src dst w d it dir
        = .error (.InvalidArgument "src and dst arrays must have same length"))
    ∧ (∀ (src dst : List Int) (dir : Bool), src.length ≠ dst.length →
      compute_degree src dst dir
        = .error (.InvalidArgument "src and dst arrays must have same length"))
    ∧ (∀ bw (src dst : List Int) (nm : Bool), src.length ≠ dst.length →
      compute_betweenness bw src dst nm
        = .error (.InvalidArgument "src and dst arrays must have same length"))
    ∧ (∀ cl (src dst : List Int), src.length ≠ dst.length →
      compute_closeness cl src dst
        = .error (.InvalidArgument "src and dst arrays must have same length"))
    ∧ (∀ ev (src dst : List Int) (mi : Nat) (tol : ℚ),
        src.length ≠ dst.length →
      compute_eigenvector ev src dst mi tol
        = .error (.InvalidArgument "src and dst arrays must have same length"))
    ∧ (∀ kz (src dst : List Int) (a : ℚ) (mi : Nat) (tol : ℚ),
        src.length ≠ dst.length →
      compute_katz kz src dst a mi tol
        = .error (.InvalidArgument "src and dst arrays must have same length"))
    ∧ (∀ hm (src dst : List Int), src.length ≠ dst.length →
      compute_harmonic hm src dst
        = .error (.InvalidArgument "src and dst arrays must have same length"))
    ∧ (∀ (src dst : List Int) (v : Int), src.length ≠ dst.length →
      compute_node_degree src dst v
        = .error (.InvalidArgument "src and dst arrays must have same length"))
    ∧ (∀ vr (src dst : List Int) (k : Nat), src.length ≠ dst.length →
      compute_voterank vr src dst k
        = .error (.InvalidArgument "src and dst arrays must have same length"))
    ∧ (∀ lr (src dst : List Int) (d : Nat), src.length ≠ dst.length →
      compute_local_reaching lr src dst d
        = .error (.InvalidArgument "src and dst arrays must have same length"))
    ∧ (∀ lp (src dst : List Int), src.length ≠ dst.length →
      compute_laplacian lp src dst
        = .error (.InvalidArgument "src and dst arrays must have same length"))
    ∧ (∀ lv (src dst : List Int) (sd : Option Nat), src.length ≠ dst.length →
      compute_louvain lv src dst sd
        = .error (.InvalidArgument "src and dst arrays must have same length"))
    ∧ (∀ cc (src dst : List Int), src.length ≠ dst.length →
      compute_connected_components cc src dst
        = .error (.InvalidArgument "src and dst arrays must have same length"))
    ∧ (∀ lpr (src dst : List Int), src.length ≠ dst.length →
      compute_label_propagation lpr src dst
        = .error (.InvalidArgument "src and dst arrays must have same length"))
    ∧ (∀ gn (src dst : List Int) (tc : Int), src.length ≠ dst.length →
      compute_girvan_newman gn src dst tc
        = .error (.InvalidArgument "src and dst arrays must have same length"))
    ∧ (∀ sc (src dst : List Int) (k : Nat) (sd : Option Nat),
        src.length ≠ dst.length →
      compute_spectral_clustering sc src dst k sd
        = .error (.InvalidArgument "src and dst arrays must have same length"))
    ∧ (∀ im (src dst : List Int) (mi : Nat) (sd : Option Nat),
        src.length ≠ dst.length →
      compute_infomap im src dst mi sd
        = .error (.InvalidArgument "src and dst arrays must have same length"))
    ∧ (∀ lk (src dst : List Int), src.length ≠ dst.length →
      compute_jaccard lk src dst
        = .error (.InvalidArgument "src and dst arrays must have same length"))
    ∧ (∀ lk (src dst : List Int), src.length ≠ dst.length →
      compute_adamic_adar lk src dst
        = .error (.InvalidArgument "src and dst arrays must have same length"))
    ∧ (∀ lk (src dst : List Int), src.length ≠ dst.length →
      compute_preferential_attachment lk src dst
        = .error (.InvalidArgument "src and dst arrays must have same length"))
    ∧ (∀ lk (src dst : List Int), src.length ≠ dst.length →
      compute_resource_allocation lk src dst
        = .error (.InvalidArgument "src and dst arrays must have same length"))
    ∧ (∀ dm (src dst : List Int), src.length ≠ dst.length →
      compute_diameter dm src dst
        = .error (.InvalidArgument "src and dst arrays must have same length"))
    ∧ (∀ rd (src dst : List Int), src.length ≠ dst.length →
      compute_radius rd src dst
        = .error (.InvalidArgument "src and dst arrays must have same length"))
    ∧ (∀ ac (src dst : List Int), src.length ≠ dst.length →
      compute_avg_clustering ac src dst
        = .error (.InvalidArgument "src and dst arrays must have same length"))
    ∧ (∀ ap (src dst : List Int), src.length ≠ dst.length →
      compute_avg_path_length ap src dst
        = .error (.InvalidArgument "src and dst arrays must have same length"))
    ∧ (∀ tr (src dst : List Int), src.length ≠ dst.length →
      compute_transitivity tr src dst
        = .error (.InvalidArgument "src and dst arrays must have same length"))
    ∧ (∀ tcn (src dst : List Int), src.length ≠ dst.length →
      compute_triangle_count tcn src dst
        = .error (.InvalidArgument "src and dst arrays must have same length"))
    ∧ (∀ ast (src dst : List Int), src.length ≠ dst.length →
      compute_assortativity ast src dst
        = .error (.InvalidArgument "src and dst arrays must have same length"))
    ∧ (∀ (src dst : List Int) (dir : Bool), src.length ≠ dst.length →
      compute_graph_density src dst dir
        = .error (.InvalidArgument "src and dst arrays must have same length"))
    ∧ (∀ (src dst : List Int) (w : List ℚ), src.length ≠ dst.length →
      compute_prim_mst src dst w
        = .error (.InvalidArgument "src, dst, and weights arrays must have same length"))
    ∧ (∀ (src dst : List Int) (w : List ℚ), src.length ≠ w.length →
      compute_prim_mst src dst w
        = .error (.InvalidArgument "src, dst, and weights arrays must have same length"))
    ∧ (∀ (src dst : List Int) (w : List ℚ), src.length ≠ dst.length →
      compute_kruskal_mst src dst w
        = .error (.InvalidArgument "src, dst, and weights arrays must have same length"))
    ∧ (∀ (src dst : List Int) (w : List ℚ), src.length ≠ w.length →
      compute_kruskal_mst src dst w
        = .error (.InvalidArgument "src, dst, and weights arrays must have same length"))
    ∧ (∀ (src dst : List Int) (w : List ℚ) (d : ℚ) (it : Nat) (dir : Bool),
        src.length ≠ dst.length →
      compute_pagerank_parallel src dst w d it dir
        = .error (.InvalidArgument "src and dst arrays must have same length"))
    ∧ (∀ bp (src dst : List Int) (s : Int), src.length ≠ dst.length →
      compute_bfs_parallel bp src dst s
        = .error (.InvalidArgument "src and dst arrays must have same length"))
    ∧ (∀ sp (src dst : List Int) (s : Int), src.length ≠ dst.length →
      compute_shortest_paths_parallel sp src dst s
        = .error (.InvalidArgument "src and dst arrays must have same length"))
    ∧ (∀ cp (src dst : List Int), src.length ≠ dst.length →
      compute_components_parallel cp src dst
        = .error (.InvalidArgument "src and dst arrays must have same length"))
    ∧ (∀ clp (src dst : List Int), src.length ≠ dst.length →
      compute_clustering_parallel clp src dst
        = .error (.InvalidArgument "src and dst arrays must have same length"))
    ∧ (∀ tp (src dst : List Int), src.length ≠ dst.length →
      compute_triangles_parallel tp src dst
        = .error (.InvalidArgument "src and dst arrays must have same length"))
    ∧ (∀ ppr (src dst : List Int) (ps : List (Int × ℚ)) (d tol : ℚ)
        (mi : Nat), src.length ≠ dst.length →
      compute_personalized_pagerank ppr src dst ps d mi tol
        = .error (.InvalidArgument "src and dst arrays must have same length"))
    ∧ (∀ eg (src dst : List Int) (c : Int) (r : Nat),
        src.length ≠ dst.length →
      compute_ego_graph eg src dst c r
        = .error (.InvalidArgument "src and dst arrays must have same length"))
    ∧ (∀ kh (src dst : List Int) (s : Int) (k : Nat),
        src.length ≠ dst.length →
      compute_k_hop_neighbors kh src dst s k
        = .error (.InvalidArgument "src and dst arrays must have same length"))
    ∧ (∀ ind (src dst : List Int) (nids : List Int),
        src.length ≠ dst.length →
      compute_induced_subgraph ind src dst nids
        = .error (.InvalidArgument "src and dst arrays must have same length"))
    ∧ (∀ sel (src dst : List Int), src.length ≠ dst.length →
      compute_max_clique sel src dst
        = .error (.InvalidArgument "src and dst arrays must have same length"))
    ∧ (∀ sel (src dst : List Int), src.length ≠ dst.length →
      compute_independent_set sel src dst
        = .error (.InvalidArgument "src and dst arrays must have same length"))
    ∧ (∀ sel (src dst : List Int), src.length ≠ dst.length →
      compute_vertex_cover sel src dst
        = .error (.InvalidArgument "src and dst arrays must have same length"))
    ∧ (∀ tsp (src dst : List Int) (w : List ℚ), src.length ≠ dst.length →
      compute_tsp tsp src dst w
        = .error (.InvalidArgument "src, dst, and weights arrays must have same length"))
    ∧ (∀ tsp (src dst : List Int) (w : List ℚ), src.length ≠ w.length →
      compute_tsp tsp src dst w
        = .error (.InvalidArgument "src, dst, and weights arrays must have same length")) := by
  refine ⟨?_, ?_, ?_, ?_, ?_, ?_, ?_, ?_, ?_, ?_, ?_, ?_, ?_, ?_, ?_, ?_,
    ?_, ?_, ?_, ?_, ?_, ?_, ?_, ?_, ?_, ?_, ?_, ?_, ?_, ?_, ?_, ?_, ?_, ?_,
    ?_, ?_, ?_, ?_, ?_, ?_, ?_, ?_, ?_, ?_, ?_, ?_, ?_, ?_, ?_, ?_, ?_, ?_,
    ?_, ?_⟩ <;>
  · intros
    simp_all [compute_dijkstra, compute_bfs, compute_dfs,
      compute_shortest_distance, compute_bellman_ford, compute_floyd_warshall,
      compute_pagerank, compute_degree, compute_betweenness, compute_closeness,
      compute_eigenvector, compute_katz, compute_harmonic, compute_node_degree,
      compute_voterank, compute_local_reaching, compute_laplacian,
      compute_louvain, compute_connected_components, compute_label_propagation,
      compute_girvan_newman, compute_spectral_clustering, compute_infomap,
      compute_jaccard, compute_adamic_adar, compute_preferential_attachment,
      compute_resource_allocation, linkPredictionBody, compute_diameter,
      compute_radius, compute_avg_clustering, compute_avg_path_length,
      compute_transitivity, compute_triangle_count, compute_assortativity,
      compute_graph_density, compute_prim_mst, compute_kruskal_mst,
      compute_pagerank_parallel, compute_bfs_parallel,
      compute_shortest_paths_parallel, compute_components_parallel,
      compute_clustering_parallel, compute_triangles_parallel,
      compute_personalized_pagerank, compute_ego_graph,
      compute_k_hop_neighbors, compute_induced_subgraph, approxSetBody,
      compute_max_clique, compute_independent_set, compute_vertex_cover,
      compute_tsp]

/-- Witness for `length_mismatch_invalid_argument`:  every conjunct applied
at a concrete mismatched input (`[1, 2]` against `[2]`, or `[1]`/`[2]`
against an empty weights array) with trivial stand-ins for the library
calls. -/
theorem length_mismatch_invalid_argument_witness :
    compute_dijkstra (fun _ _ => .ok fun _ => none) [1, 2] [2] 1
        = .error (.InvalidArgument "src and dst arrays must have same length")
    ∧ compute_bfs [1, 2] [2] 1
        = .error (.InvalidArgument "src and dst arrays must have same length")
    ∧ compute_dfs [1, 2] [2] 1
        = .error (.InvalidArgument "src and dst arrays must have same length")
    ∧ compute_shortest_distance (fun _ _ => .ok fun _ => none) [1, 2] [2] 1 2
        = .error (.InvalidArgument "src and dst arrays must have same length")
    ∧ compute_bellman_ford (fun _ _ => none) [1, 2] [2] [1, 1] 1
        = .error (.InvalidArgument "src, dst, and weights arrays must have same length")
    ∧ compute_bellman_ford (fun _ _ => none) [1] [2] [] 1
        = .error (.InvalidArgument "src, dst, and weights arrays must have same length")
    ∧ compute_floyd_warshall (fun _ => none) [1, 2] [2] [1, 1]
        = .error (.InvalidArgument "src, dst, and weights arrays must have same length")
    ∧ compute_floyd_warshall (fun _ => none) [1] [2] []
        = .error (.InvalidArgument "src, dst, and weights arrays must have same length")
    ∧ compute_pagerank [1, 2] [2] [] 1 1 false
        = .error (.InvalidArgument "src and dst arrays must have same length")
    ∧ compute_degree [1, 2] [2] false
        = .error (.InvalidArgument "src and dst arrays must have same length")
    ∧ compute_betweenness (fun _ _ => .ok fun _ => 0) [1, 2] [2] true
        = .error (.InvalidArgument "src and dst arrays must have same length")
    ∧ compute_closeness (fun _ => .ok fun _ => 0) [1, 2] [2]
        = .error (.InvalidArgument "src and dst arrays must have same length")
    ∧ compute_eigenvector (fun _ _ _ => .ok fun _ => 0) [1, 2] [2] 1 1
        = .error (.InvalidArgument "src and dst arrays must have same length")
    ∧ compute_katz (fun _ _ _ _ => .ok fun _ => 0) [1, 2] [2] 1 1 1
        = .error (.InvalidArgument "src and dst arrays must have same length")
    ∧ compute_harmonic (fun _ => .ok fun _ => 0) [1, 2] [2]
        = .error (.InvalidArgument "src and dst arrays must have same length")
    ∧ compute_node_degree [1, 2] [2] 1
        = .error (.InvalidArgument "src and dst arrays must have same length")
    ∧ compute_voterank (fun _ _ => []) [1, 2] [2] 1
        = .error (.InvalidArgument "src and dst arrays must have same length")
    ∧ compute_local_reaching (fun _ _ => .ok fun _ => 0) [1, 2] [2] 1
        = .error (.InvalidArgument "src and dst arrays must have same length")
    ∧ compute_laplacian (fun _ => .ok fun _ => 0) [1, 2] [2]
        = .error (.InvalidArgument "src and dst arrays must have same length")
    ∧ compute_louvain (fun _ _ => .ok []) [1, 2] [2] none
        = .error (.InvalidArgument "src and dst arrays must have same length")
    ∧ compute_connected_components (fun _ => []) [1, 2] [2]
        = .error (.InvalidArgument "src and dst arrays must have same length")
    ∧ compute_label_propagation (fun _ _ _ => .ok []) [1, 2] [2]
        = .error (.InvalidArgument "src and dst arrays must have same length")
    ∧ compute_girvan_newman (fun _ _ => .ok []) [1, 2] [2] 2
        = .error (.InvalidArgument "src and dst arrays must have same length")
    ∧ compute_spectral_clustering (fun _ _ _ => .ok []) [1, 2] [2] 2 none
        = .error (.InvalidArgument "src and dst arrays must have same length")
    ∧ compute_infomap (fun _ _ _ => .ok []) [1, 2] [2] 2 none
        = .error (.InvalidArgument "src and dst arrays must have same length")
    ∧ compute_jaccard (fun _ => []) [1, 2] [2]
        = .error (.InvalidArgument "src and dst arrays must have same length")
    ∧ compute_adamic_adar (fun _ => []) [1, 2] [2]
        = .error (.InvalidArgument "src and dst arrays must have same length")
    ∧ compute_preferential_attachment (fun _ => []) [1, 2] [2]
        = .error (.InvalidArgument "src and dst arrays must have same length")
    ∧ compute_resource_allocation (fun _ => []) [1, 2] [2]
        = .error (.InvalidArgument "src and dst arrays must have same length")
    ∧ compute_diameter (fun _ => none) [1, 2] [2]
        = .error (.InvalidArgument "src and dst arrays must have same length")
    ∧ compute_radius (fun _ => none) [1, 2] [2]
        = .error (.InvalidArgument "src and dst arrays must have same length")
    ∧ compute_avg_clustering (fun _ => 0) [1, 2] [2]
        = .error (.InvalidArgument "src and dst arrays must have same length")
    ∧ compute_avg_path_length (fun _ => none) [1, 2] [2]
        = .error (.InvalidArgument "src and dst arrays must have same length")
    ∧ compute_transitivity (fun _ => 0) [1, 2] [2]
        = .error (.InvalidArgument "src and dst arrays must have same length")
    ∧ compute_triangle_count (fun _ => []) [1, 2] [2]
        = .error (.InvalidArgument "src and dst arrays must have same length")
    ∧ compute_assortativity (fun _ => 0) [1, 2] [2]
        = .error (.InvalidArgument "src and dst arrays must have same length")
    ∧ compute_graph_density [1, 2] [2] false
        = .error (.InvalidArgument "src and dst arrays must have same length")
    ∧ compute_prim_mst [1, 2] [2] [1, 1]
        = .error (.InvalidArgument "src, dst, and weights arrays must have same length")
    ∧ compute_prim_mst [1] [2] []
        = .error (.InvalidArgument "src, dst, and weights arrays must have same length")
    ∧ compute_kruskal_mst [1, 2] [2] [1, 1]
        = .error (.InvalidArgument "src, dst, and weights arrays must have same length")
    ∧ compute_kruskal_mst [1] [2] []
        = .error (.InvalidArgument "src, dst, and weights arrays must have same length")
    ∧ compute_pagerank_parallel [1, 2] [2] [] 1 1 false
        = .error (.InvalidArgument "src and dst arrays must have same length")
    ∧ compute_bfs_parallel (fun _ _ => []) [1, 2] [2] 1
        = .error (.InvalidArgument "src and dst arrays must have same length")
    ∧ compute_shortest_paths_parallel (fun _ _ => []) [1, 2] [2] 1
        = .error (.InvalidArgument "src and dst arrays must have same length")
    ∧ compute_components_parallel (fun _ => []) [1, 2] [2]
        = .error (.InvalidArgument "src and dst arrays must have same length")
    ∧ compute_clustering_parallel (fun _ => []) [1, 2] [2]
        = .error (.InvalidArgument "src and dst arrays must have same length")
    ∧ compute_triangles_parallel (fun _ => []) [1, 2] [2]
        = .error (.InvalidArgument "src and dst arrays must have same length")
    ∧ compute_personalized_pagerank (fun _ _ _ _ _ => .ok []) [1, 2] [2] [] 1 1 1
        = .error (.InvalidArgument "src and dst arrays must have same length")
    ∧ compute_ego_graph (fun _ _ _ => .ok []) [1, 2] [2] 1 1
        = .error (.InvalidArgument "src and dst arrays must have same length")
    ∧ compute_k_hop_neighbors (fun _ _ _ => []) [1, 2] [2] 1 1
        = .error (.InvalidArgument "src and dst arrays must have same length")
    ∧ compute_induced_subgraph (fun _ _ => .ok []) [1, 2] [2] [1]
        = .error (.InvalidArgument "src and dst arrays must have same length")
    ∧ compute_max_clique (fun _ => []) [1, 2] [2]
        = .error (.InvalidArgument "src and dst arrays must have same length")
    ∧ compute_independent_set (fun _ => []) [1, 2] [2]
        = .error (.InvalidArgument "src and dst arrays must have same length")
    ∧ compute_vertex_cover (fun _ => []) [1, 2] [2]
        = .error (.InvalidArgument "src and dst arrays must have same length")
    ∧ compute_tsp (fun _ => .ok ([], 0)) [1, 2] [2] [1, 1]
        = .error (.InvalidArgument "src, dst, and weights arrays must have same length")
    ∧ compute_tsp (fun _ => .ok ([], 0)) [1] [2] []
        = .error (.InvalidArgument "src, dst, and weights arrays must have same length") := by
  obtain ⟨h1, h2, h3, h4, h5, h6, h7, h8, h9, h10, h11, h12, h13, h14, h15,
    h16, h17, h18, h19, h20, h21, h22, h23, h24, h25, h26, h27, h28, h29,
    h30, h31, h32, h33, h34, h35, h36, h37, h38, h39, h40, h41, h42, h43,
    h44, h45, h46, h47, h48, h49, h50, h51, h52, h53, h54, h55, h56⟩ :=
    length_mismatch_invalid_argument
  exact ⟨h1 _ _ _ _ (by decide), h2 _ _ _ (by decide), h3 _ _ _ (by decide),
    h4 _ _ _ _ _ (by decide), h5 _ _ _ _ _ (by decide),
    h6 _ _ _ _ _ (by decide), h7 _ _ _ _ (by decide), h8 _ _ _ _ (by decide),
    h9 _ _ _ _ _ _ (by decide), h10 _ _ _ (by decide),
    h11 _ _ _ _ (by decide), h12 _ _ _ (by decide),
    h13 _ _ _ _ _ (by decide), h14 _ _ _ _ _ _ (by decide),
    h15 _ _ _ (by decide), h16 _ _ _ (by decide), h17 _ _ _ _ (by decide),
    h18 _ _ _ _ (by decide), h19 _ _ _ (by decide), h20 _ _ _ _ (by decide),
    h21 _ _ _ (by decide), h22 _ _ _ (by decide), h23 _ _ _ _ (by decide),
    h24 _ _ _ _ _ (by decide), h25 _ _ _ _ _ (by decide),
    h26 _ _ _ (by decide), h27 _ _ _ (by decide), h28 _ _ _ (by decide),
    h29 _ _ _ (by decide), h30 _ _ _ (by decide), h31 _ _ _ (by decide),
    h32 _ _ _ (by decide), h33 _ _ _ (by decide), h34 _ _ _ (by decide),
    h35 _ _ _ (by decide), h36 _ _ _ (by decide), h37 _ _ _ (by decide),
    h38 _ _ _ (by decide), h39 _ _ _ (by decide), h40 _ _ _ (by decide),
    h41 _ _ _ (by decide), h42 _ _ _ _ _ _ (by decide),
    h43 _ _ _ _ (by decide), h44 _ _ _ _ (by decide), h45 _ _ _ (by decide),
    h46 _ _ _ (by decide), h47 _ _ _ (by decide),
    h48 _ _ _ _ _ _ _ (by decide), h49 _ _ _ _ _ (by decide),
    h50 _ _ _ _ _ (by decide), h51 _ _ _ _ (by decide),
    h52 _ _ _ (by decide), h53 _ _ _ (by decide), h54 _ _ _ (by decide),
    h55 _ _ _ _ (by decide), h56 _ _ _ _ (by decide)⟩

/-! ## Connectivity lemmas for the MST development -/

lemma estep_symm {es : List (Nat × Nat × ℚ)} {S : Finset (Fin es.length)}
    {u v : Nat} (h : estep es S u v) : estep es S v u := by
  obtain ⟨i, hi, ho⟩ := h
  exact ⟨i, hi, ho.symm⟩

lemma linked_symm {es : List (Nat × Nat × ℚ)} {S : Finset (Fin es.length)}
    {u v : Nat} (h : linked es S u v) : linked es S v u :=
  Relation.ReflTransGen.symmetric (fun _ _ hs => estep_symm hs) h

lemma linked_mono {es : List (Nat × Nat × ℚ)} {S T : Finset (Fin es.length)}
    {u v : Nat} (hST : S ⊆ T) (h : linked es S u v) : linked es T u v :=
  Relation.ReflTransGen.mono (fun _ _ hs => by
    obtain ⟨i, hi, ho⟩ := hs
    exact ⟨i, hST hi, ho⟩) h

lemma linked_of_mem {es : List (Nat × Nat × ℚ)} {S : Finset (Fin es.length)}
    {i : Fin es.length} (hi : i ∈ S) :
    linked es S (es.get i).1 (es.get i).2.1 :=
  Relation.ReflTransGen.single ⟨i, hi, Or.inl ⟨rfl, rfl⟩⟩

lemma linked_empty {es : List (Nat × Nat × ℚ)} {u v : Nat}
    (h : linked es (∅ : Finset (Fin es.length)) u v) : u = v := by
  induction h with
  | refl => rfl
  | tail _ hstep ih =>
      obtain ⟨i, hi, _⟩ := hstep
      exact absurd hi (Finset.not_mem_empty i)

/-- Decomposition of connectivity over an inserted edge: a connection either
avoids the new edge or passes through it in one of the two directions. -/
lemma linked_insert_iff {es : List (Nat × Nat × ℚ)}
    {S : Finset (Fin es.length)} {i : Fin es.length} {u v : Nat} :
    linked es (insert i S) u v ↔
      linked es S u v
      ∨ (linked es S u (es.get i).1 ∧ linked es S (es.get i).2.1 v)
      ∨ (linked es S u (es.get i).2.1 ∧ linked es S (es.get i).1 v) := by
  constructor
  · intro h
    induction h with
    | refl => exact Or.inl Relation.ReflTransGen.refl
    | @tail w z _ hstep ih =>
        obtain ⟨k, hk, ho⟩ := hstep
        rcases Finset.mem_insert.mp hk with rfl | hkS
        · rcases ho with ⟨ha, hb⟩ | ⟨ha, hb⟩
          · subst ha
            subst hb
            rcases ih with h1 | ⟨h2a, _⟩ | ⟨h3a, _⟩
            · exact Or.inr (Or.inl ⟨h1, Relation.ReflTransGen.refl⟩)
            · exact Or.inr (Or.inl ⟨h2a, Relation.ReflTransGen.refl⟩)
            · exact Or.inl h3a
          · subst ha
            subst hb
            rcases ih with h1 | ⟨h2a, _⟩ | ⟨h3a, h3b⟩
            · exact Or.inr (Or.inr ⟨h1, Relation.ReflTransGen.refl⟩)
            · exact Or.inl h2a
            · exact Or.inl (h3a.trans (linked_symm h3b))
        · have hstep2 : estep es S w z := ⟨k, hkS, ho⟩
          rcases ih with h1 | ⟨h2a, h2b⟩ | ⟨h3a, h3b⟩
          · exact Or.inl (h1.tail hstep2)
          · exact Or.inr (Or.inl ⟨h2a, h2b.tail hstep2⟩)
          · exact Or.inr (Or.inr ⟨h3a, h3b.tail hstep2⟩)
  · rintro (h1 | ⟨h2a, h2b⟩ | ⟨h3a, h3b⟩)
    · exact linked_mono (Finset.subset_insert i S) h1
    · have hmid : linked es (insert i S) (es.get i).1 (es.get i).2.1 :=
        linked_of_mem (Finset.mem_insert_self i S)
      exact ((linked_mono (Finset.subset_insert i S) h2a).trans hmid).trans
        (linked_mono (Finset.subset_insert i S) h2b)
    · have hmid : linked es (insert i S) (es.get i).1 (es.get i).2.1 :=
        linked_of_mem (Finset.mem_insert_self i S)
      exact ((linked_mono (Finset.subset_insert i S) h3a).trans
        (linked_symm hmid)).trans
        (linked_mono (Finset.subset_insert i S) h3b)

/-- Removing a redundant edge does not change connectivity. -/
lemma linked_of_redundant {es : List (Nat × Nat × ℚ)}
    {S : Finset (Fin es.length)} {j : Fin es.length} (hj : j ∈ S)
    (hred : linked es (S.erase j) (es.get j).1 (es.get j).2.1) {u v : Nat}
    (h : linked es S u v) : linked es (S.erase j) u v := by
  have hS : insert j (S.erase j) = S := Finset.insert_erase hj
  rw [← hS] at h
  rcases linked_insert_iff.mp h with h1 | ⟨h2a, h2b⟩ | ⟨h3a, h3b⟩
  · exact h1
  · exact (h2a.trans hred).trans h2b
  · exact (h3a.trans (linked_symm hred)).trans h3b

lemma walkL_linked {es : List (Nat × Nat × ℚ)} {S : Finset (Fin es.length)}
    {x y : Nat} {l : List (Fin es.length)} (h : WalkL es S x y l) :
    linked es S x y := by
  induction h with
  | nil => exact Relation.ReflTransGen.refl
  | cons i hi ho _ ih => exact Relation.ReflTransGen.head ⟨i, hi, ho⟩ ih

lemma walkL_append {es : List (Nat × Nat × ℚ)} {S : Finset (Fin es.length)}
    {x y z : Nat} {l1 l2 : List (Fin es.length)} (h1 : WalkL es S x y l1)
    (h2 : WalkL es S y z l2) : WalkL es S x z (l1 ++ l2) := by
  induction h1 with
  | nil => exact h2
  | cons i hi ho _ ih => exact WalkL.cons i hi ho (ih h2)

lemma linked_walkL {es : List (Nat × Nat × ℚ)} {S : Finset (Fin es.length)}
    {x y : Nat} (h : linked es S x y) : ∃ l, WalkL es S x y l := by
  induction h with
  | refl => exact ⟨[], WalkL.nil x⟩
  | tail _ hstep ih =>
      obtain ⟨l, hl⟩ := ih
      obtain ⟨i, hi, ho⟩ := hstep
      exact ⟨l ++ [i], walkL_append hl (WalkL.cons i hi ho (WalkL.nil _))⟩

lemma walkL_split {es : List (Nat × Nat × ℚ)} {S : Finset (Fin es.length)}
    {x z : Nat} (l1 : List (Fin es.length)) {l2 : List (Fin es.length)}
    (h : WalkL es S x z (l1 ++ l2)) :
    ∃ y, WalkL es S x y l1 ∧ WalkL es S y z l2 := by
  induction l1 generalizing x with
  | nil => exact ⟨x, WalkL.nil x, h⟩
  | cons i t ih =>
      cases h with
      | cons _ hi ho hrest =>
          obtain ⟨y, hy1, hy2⟩ := ih hrest
          exact ⟨y, WalkL.cons i hi ho hy1, hy2⟩

lemma walkL_avoid {es : List (Nat × Nat × ℚ)} {S : Finset (Fin es.length)}
    {j : Fin es.length} {x y : Nat} {l : List (Fin es.length)}
    (h : WalkL es S x y l) (hj : j ∉ l) : WalkL es (S.erase j) x y l := by
  induction h with
  | nil => exact WalkL.nil _
  | cons i hi ho _ ih =>
      have hij : i ≠ j := fun he => hj (he ▸ List.mem_cons_self i _)
      exact WalkL.cons i (Finset.mem_erase.mpr ⟨hij, hi⟩) ho
        (ih (fun hm => hj (List.mem_cons_of_mem i hm)))

lemma split_of_not_nodup {α : Type} {l : List α} (h : ¬ l.Nodup) :
    ∃ (j : α) (l1 l2 l3 : List α), l = l1 ++ j :: l2 ++ j :: l3 := by
  induction l with
  | nil => exact absurd List.nodup_nil h
  | cons a t ih =>
      by_cases ha : a ∈ t
      · obtain ⟨t1, t2, rfl⟩ := List.append_of_mem ha
        exact ⟨a, [], t1, t2, rfl⟩
      · have hnt : ¬ t.Nodup := by
          intro hnd
          exact h (List.nodup_cons.mpr ⟨ha, hnd⟩)
        obtain ⟨j, l1, l2, l3, rfl⟩ := ih hnt
        exact ⟨j, a :: l1, l2, l3, rfl⟩

lemma walkL_cons_inv {es : List (Nat × Nat × ℚ)}
    {S : Finset (Fin es.length)} {x z : Nat} {i : Fin es.length}
    {l : List (Fin es.length)} (h : WalkL es S x z (i :: l)) :
    ∃ y, i ∈ S
      ∧ ((es.get i).1 = x ∧ (es.get i).2.1 = y
          ∨ (es.get i).1 = y ∧ (es.get i).2.1 = x)
      ∧ WalkL es S y z l := by
  cases h with
  | cons _ hi ho hrest => exact ⟨_, hi, ho, hrest⟩

/-- Every walk can be shortened to one that repeats no edge. -/
lemma exists_nodup_walk {es : List (Nat × Nat × ℚ)}
    {S : Finset (Fin es.length)} {x y : Nat} :
    ∀ (m : Nat) (l : List (Fin es.length)), l.length ≤ m →
      WalkL es S x y l → ∃ l', WalkL es S x y l' ∧ l'.Nodup := by
  intro m
  induction m with
  | zero =>
      intro l hl hw
      rw [Nat.le_zero, List.length_eq_zero] at hl
      exact ⟨l, hw, hl ▸ List.nodup_nil⟩
  | succ m ih =>
      intro l hl hw
      by_cases hnd : l.Nodup
      · exact ⟨l, hw, hnd⟩
      · obtain ⟨j, l1, l2, l3, rfl⟩ := split_of_not_nodup hnd
        have hw0 : WalkL es S x y (l1 ++ (j :: (l2 ++ j :: l3))) := by
          simpa using hw
        obtain ⟨s1, hw1, hwr⟩ := walkL_split l1 hw0
        obtain ⟨t1, hjS, ho1, hrest⟩ := walkL_cons_inv hwr
        obtain ⟨s2, _, hwr2⟩ := walkL_split l2 hrest
        obtain ⟨t2, _, ho2, hw3⟩ := walkL_cons_inv hwr2
        have hlen0 : l1.length + (l2.length + (l3.length + 2))
            ≤ m + 1 := by simpa using hl
        rcases ho1 with ⟨ha1, hb1⟩ | ⟨ha1, hb1⟩ <;>
          rcases ho2 with ⟨ha2, hb2⟩ | ⟨ha2, hb2⟩
        · exact ih (l1 ++ j :: l3) (by simp; omega)
            (walkL_append hw1 (WalkL.cons j hjS (Or.inl ⟨ha1, hb2⟩) hw3))
        · have hst : s1 = t2 := ha1 ▸ ha2
          exact ih (l1 ++ l3) (by simp; omega)
            (walkL_append hw1 (hst ▸ hw3))
        · have hst : s1 = t2 := hb1 ▸ hb2
          exact ih (l1 ++ l3) (by simp; omega)
            (walkL_append hw1 (hst ▸ hw3))
        · exact ih (l1 ++ j :: l3) (by simp; omega)
            (walkL_append hw1 (WalkL.cons j hjS (Or.inr ⟨ha2, hb1⟩) hw3))

/-- A repeat-free walk crossing a vertex predicate `C` contains a crossing
edge whose two sides stay reachable without that edge. -/
lemma crossing_of_walk {es : List (Nat × Nat × ℚ)}
    {S : Finset (Fin es.length)} {C : Nat → Prop} :
    ∀ {l : List (Fin es.length)} {x y : Nat}, WalkL es S x y l → l.Nodup →
      C x → ¬ C y →
      ∃ j, j ∈ l ∧ j ∈ S ∧ ∃ p q : Nat,
        ((es.get j).1 = p ∧ (es.get j).2.1 = q
          ∨ (es.get j).1 = q ∧ (es.get j).2.1 = p)
        ∧ C p ∧ ¬ C q
        ∧ linked es (S.erase j) x p ∧ linked es (S.erase j) q y := by
  intro l
  induction l with
  | nil =>
      intro x y hw _ hx hy
      cases hw
      exact absurd hx hy
  | cons i t ih =>
      intro x y hw hnd hx hy
      obtain ⟨z, hiS, ho, hrest⟩ := walkL_cons_inv hw
      have hit : i ∉ t := (List.nodup_cons.mp hnd).1
      have hndt : t.Nodup := (List.nodup_cons.mp hnd).2
      by_cases hz : C z
      · obtain ⟨j, hjl, hjS, p, q, hor, hp, hq, hseg1, hseg2⟩ :=
          ih hrest hndt hz hy
        have hij : i ≠ j := fun he => hit (he ▸ hjl)
        have hstep : estep es (S.erase j) x z :=
          ⟨i, Finset.mem_erase.mpr ⟨hij, hiS⟩, ho⟩
        exact ⟨j, List.mem_cons_of_mem i hjl, hjS, p, q, hor, hp, hq,
          Relation.ReflTransGen.head hstep hseg1, hseg2⟩
      · refine ⟨i, List.mem_cons_self i t, hiS, x, z, ?_, hx, hz,
          Relation.ReflTransGen.refl, walkL_linked (walkL_avoid hrest hit)⟩
        rcases ho with h | h
        · exact Or.inl h
        · exact Or.inr h

/-- Crossing lemma: a connection from inside `C` to outside `C` uses an edge
crossing `C`, and both crossing sides remain reachable without it. -/
lemma crossing_lemma {es : List (Nat × Nat × ℚ)}
    {S : Finset (Fin es.length)} {C : Nat → Prop} {x y : Nat}
    (h : linked es S x y) (hx : C x) (hy : ¬ C y) :
    ∃ j ∈ S, ∃ p q : Nat,
      ((es.get j).1 = p ∧ (es.get j).2.1 = q
        ∨ (es.get j).1 = q ∧ (es.get j).2.1 = p)
      ∧ C p ∧ ¬ C q
      ∧ linked es (S.erase j) x p ∧ linked es (S.erase j) q y := by
  obtain ⟨l0, hl0⟩ := linked_walkL h
  obtain ⟨l, hl, hnd⟩ := exists_nodup_walk l0.length l0 le_rfl hl0
  obtain ⟨j, _, hjS, p, q, hor, hp, hq, hseg1, hseg2⟩ :=
    crossing_of_walk hl hnd hx hy
  exact ⟨j, hjS, p, q, hor, hp, hq, hseg1, hseg2⟩

/-- The weak form: some edge of the selection crosses the predicate. -/
lemma crossing_exists {es : List (Nat × Nat × ℚ)}
    {S : Finset (Fin es.length)} {C : Nat → Prop} {x y : Nat}
    (h : linked es S x y) (hx : C x) (hy : ¬ C y) :
    ∃ j ∈ S, (C (es.get j).1 ∧ ¬ C (es.get j).2.1)
      ∨ (C (es.get j).2.1 ∧ ¬ C (es.get j).1) := by
  obtain ⟨j, hjS, p, q, hor, hp, hq, _, _⟩ := crossing_lemma h hx hy
  rcases hor with ⟨h1, h2⟩ | ⟨h1, h2⟩
  · exact ⟨j, hjS, Or.inl ⟨h1 ▸ hp, h2 ▸ hq⟩⟩
  · exact ⟨j, hjS, Or.inr ⟨h2 ▸ hp, h1 ▸ hq⟩⟩

/-! ## Forest lemmas -/

lemma isForest_subset {es : List (Nat × Nat × ℚ)}
    {S T : Finset (Fin es.length)} (hTS : T ⊆ S) (h : IsForest es S) :
    IsForest es T := fun i hi hlink =>
  h i (hTS hi) (linked_mono (Finset.erase_subset_erase i hTS) hlink)

lemma not_mem_of_not_linked {es : List (Nat × Nat × ℚ)}
    {S : Finset (Fin es.length)} {i : Fin es.length}
    (hnl : ¬ linked es S (es.get i).1 (es.get i).2.1) : i ∉ S :=
  fun hi => hnl (linked_of_mem hi)

lemma isForest_insert {es : List (Nat × Nat × ℚ)}
    {S : Finset (Fin es.length)} {i : Fin es.length} (hf : IsForest es S)
    (hnl : ¬ linked es S (es.get i).1 (es.get i).2.1) :
    IsForest es (insert i S) := by
  have hiS : i ∉ S := not_mem_of_not_linked hnl
  intro k hk
  rcases Finset.mem_insert.mp hk with rfl | hkS
  · rw [Finset.erase_insert hiS]
    exact hnl
  · have hik : i ≠ k := fun he => hiS (he ▸ hkS)
    rw [Finset.erase_insert_of_ne hik]
    intro hlink
    have hkS2 : linked es S (es.get k).1 (es.get k).2.1 :=
      linked_of_mem hkS
    have her : S.erase k ⊆ S := Finset.erase_subset k S
    rcases linked_insert_iff.mp hlink with h1 | ⟨h2a, h2b⟩ | ⟨h3a, h3b⟩
    · exact hf k hkS h1
    · exact hnl (((linked_symm (linked_mono her h2a)).trans hkS2).trans
        (linked_symm (linked_mono her h2b)))
    · exact hnl ((linked_mono her h3b).trans
        ((linked_symm hkS2).trans (linked_mono her h3a)))

/-! ## Component counting via canonical representatives -/

lemma classRep_linked {es : List (Nat × Nat × ℚ)}
    {S : Finset (Fin es.length)} (v : Nat) :
    linked es S (classRep es S v) v := by
  have h : Set.Nonempty {u | linked es S u v} :=
    ⟨v, Relation.ReflTransGen.refl⟩
  simpa [classRep] using Nat.sInf_mem h

lemma classRep_le {es : List (Nat × Nat × ℚ)} {S : Finset (Fin es.length)}
    (v : Nat) : classRep es S v ≤ v := by
  have h : v ∈ {u | linked es S u v} := Relation.ReflTransGen.refl
  simpa [classRep] using Nat.sInf_le h

lemma classRep_congr {es : List (Nat × Nat × ℚ)}
    {S : Finset (Fin es.length)} {x y : Nat} (h : linked es S x y) :
    classRep es S x = classRep es S y := by
  unfold classRep
  congr 1
  ext u
  exact ⟨fun hu => hu.trans h, fun hu => hu.trans (linked_symm h)⟩

lemma not_linked_of_lt_classRep {es : List (Nat × Nat × ℚ)}
    {S : Finset (Fin es.length)} {u v : Nat} (h : u < classRep es S v) :
    ¬ linked es S u v := by
  intro hl
  have h2 : u < sInf {u | linked es S u v} := by simpa [classRep] using h
  exact Nat.not_mem_of_lt_sInf h2 hl

lemma classRep_idem {es : List (Nat × Nat × ℚ)}
    {S : Finset (Fin es.length)} (v : Nat) :
    classRep es S (classRep es S v) = classRep es S v :=
  classRep_congr (classRep_linked v)

lemma mem_ncompFilter_iff {es : List (Nat × Nat × ℚ)}
    {S : Finset (Fin es.length)} {n v : Nat} :
    v ∈ (Finset.range n).filter (fun v => classRep es S v = v)
      ↔ v < n ∧ classRep es S v = v := by
  rw [Finset.mem_filter, Finset.mem_range]

lemma classRep_mem_ncompFilter {es : List (Nat × Nat × ℚ)}
    {S : Finset (Fin es.length)} {n v : Nat} (hv : v < n) :
    classRep es S v ∈ (Finset.range n).filter
      (fun v => classRep es S v = v) :=
  mem_ncompFilter_iff.mpr
    ⟨lt_of_le_of_lt (classRep_le v) hv, classRep_idem v⟩

/-- Coarsening a connectivity relation cannot increase the number of
components. -/
lemma ncomp_le_of_linked_le {es : List (Nat × Nat × ℚ)} {n : Nat}
    {S T : Finset (Fin es.length)}
    (hmono : ∀ u v, linked es S u v → linked es T u v) :
    ncomp es n T ≤ ncomp es n S := by
  unfold ncomp
  apply Finset.card_le_card_of_injOn (classRep es S)
  · intro v hv
    exact classRep_mem_ncompFilter (mem_ncompFilter_iff.mp hv).1
  · intro v1 hv1 v2 hv2 heq
    have h1 := mem_ncompFilter_iff.mp hv1
    have h2 := mem_ncompFilter_iff.mp hv2
    have hS : linked es S v1 v2 :=
      (linked_symm (classRep_linked v1)).trans (heq ▸ classRep_linked v2)
    have hT := classRep_congr (hmono _ _ hS)
    rw [h1.2, h2.2] at hT
    exact hT

lemma ncomp_congr {es : List (Nat × Nat × ℚ)} {n : Nat}
    {S T : Finset (Fin es.length)}
    (hiff : ∀ u v, linked es S u v ↔ linked es T u v) :
    ncomp es n S = ncomp es n T :=
  le_antisymm (ncomp_le_of_linked_le (fun u v h => (hiff u v).mpr h))
    (ncomp_le_of_linked_le (fun u v h => (hiff u v).mp h))

/-- Auxiliary merge computation: if the selection `T` refines `S` exactly by
gluing the components of `a` and `b` (with `classRep S a < classRep S b`),
then `T` has exactly one component fewer. -/
lemma ncomp_glue_aux {es : List (Nat × Nat × ℚ)} {n : Nat}
    {S T : Finset (Fin es.length)} {a b : Nat} (hb : b < n)
    (hmAB : classRep es S a < classRep es S b)
    (hiff : ∀ u v, linked es T u v ↔ linked es S u v
      ∨ (linked es S u a ∧ linked es S b v)
      ∨ (linked es S u b ∧ linked es S a v)) :
    ncomp es n T + 1 = ncomp es n S := by
  set mA := classRep es S a with hmA
  set mB := classRep es S b with hmB
  have hTmAmB : linked es T mA mB :=
    (hiff mA mB).mpr (Or.inr (Or.inl
      ⟨classRep_linked a, linked_symm (classRep_linked b)⟩))
  have hmBnotT : classRep es T mB ≠ mB := by
    have h1 : classRep es T mB = classRep es T mA :=
      classRep_congr (linked_symm hTmAmB)
    have h2 : classRep es T mA ≤ mA := classRep_le mA
    omega
  have hsub : (Finset.range n).filter (fun v => classRep es T v = v)
      = ((Finset.range n).filter (fun v => classRep es S v = v)).erase mB := by
    ext v
    rw [Finset.mem_erase, mem_ncompFilter_iff, mem_ncompFilter_iff]
    constructor
    · rintro ⟨hvn, hvT⟩
      have hvS : classRep es S v = v := by
        rcases Nat.lt_or_ge (classRep es S v) v with hlt | hge
        · exfalso
          have : linked es T (classRep es S v) v :=
            (hiff _ _).mpr (Or.inl (classRep_linked v))
          have h3 : classRep es T v ≤ classRep es S v :=
            (classRep_congr (linked_symm this)) ▸ classRep_le _
          omega
        · exact le_antisymm (classRep_le v) hge
      refine ⟨fun he => ?_, hvn, hvS⟩
      exact hmBnotT (he ▸ hvT)
    · rintro ⟨hne, hvn, hvS⟩
      refine ⟨hvn, ?_⟩
      rcases Nat.lt_or_ge (classRep es T v) v with hlt | hge
      · exfalso
        have hTlink : linked es T (classRep es T v) v := classRep_linked v
        rcases (hiff _ _).mp hTlink with h1 | ⟨h2a, h2b⟩ | ⟨h3a, h3b⟩
        · have : classRep es S v ≤ classRep es T v :=
            (classRep_congr (linked_symm h1)) ▸ classRep_le _
          omega
        · have : classRep es S v = mB := by
            rw [hmB]
            exact classRep_congr (linked_symm h2b)
          exact hne (by omega)
        · have hva : classRep es S v = mA := by
            rw [hmA]
            exact classRep_congr (linked_symm h3b)
          have hub : classRep es S (classRep es T v) = mB := by
            rw [hmB]
            exact classRep_congr h3a
          have : classRep es S (classRep es T v) ≤ classRep es T v :=
            classRep_le _
          omega
      · exact le_antisymm (classRep_le v) hge
  have hmBS : mB ∈ (Finset.range n).filter
      (fun v => classRep es S v = v) := by
    rw [mem_ncompFilter_iff]
    exact ⟨lt_of_le_of_lt (classRep_le b) hb, classRep_idem b⟩
  unfold ncomp
  rw [hsub, Finset.card_erase_of_mem hmBS]
  have : 0 < ((Finset.range n).filter
      (fun v => classRep es S v = v)).card :=
    Finset.card_pos.mpr ⟨mB, hmBS⟩
  omega

/-- Inserting an edge between two previously separate components reduces the
component count by exactly one. -/
lemma ncomp_insert {es : List (Nat × Nat × ℚ)} {n : Nat}
    {S : Finset (Fin es.length)} {i : Fin es.length}
    (ha : (es.get i).1 < n) (hb : (es.get i).2.1 < n)
    (hnl : ¬ linked es S (es.get i).1 (es.get i).2.1) :
    ncomp es n (insert i S) + 1 = ncomp es n S := by
  have hne : classRep es S (es.get i).1 ≠ classRep es S (es.get i).2.1 := by
    intro he
    exact hnl ((linked_symm (classRep_linked _)).trans
      (he ▸ classRep_linked _))
  rcases Nat.lt_or_ge (classRep es S (es.get i).1)
      (classRep es S (es.get i).2.1) with hlt | hge
  · exact ncomp_glue_aux hb hlt (fun u v => linked_insert_iff)
  · have hlt2 : classRep es S (es.get i).2.1
        < classRep es S (es.get i).1 := by omega
    refine ncomp_glue_aux ha hlt2 (fun u v => ?_)
    rw [linked_insert_iff]
    tauto

/-- A forest on `n` vertices with `c` components has exactly `n - c`
edges. -/
lemma forest_card {es : List (Nat × Nat × ℚ)} {n : Nat}
    (hok : EdgesOk n es) {F : Finset (Fin es.length)} (hF : IsForest es F) :
    F.card + ncomp es n F = n := by
  induction F using Finset.strongInduction with
  | _ F ih =>
      by_cases hFe : F = ∅
      · subst hFe
        simp only [Finset.card_empty, Nat.zero_add]
        unfold ncomp
        have : ∀ v ∈ Finset.range n, classRep es (∅ : Finset _) v = v := by
          intro v _
          refine le_antisymm (classRep_le v) ?_
          have := @classRep_linked es ∅ v
          exact le_of_eq (linked_empty this).symm
        rw [Finset.filter_true_of_mem this, Finset.card_range]
      · obtain ⟨i, hi⟩ := Finset.nonempty_iff_ne_empty.mpr hFe
        have hsub : F.erase i ⊂ F := Finset.erase_ssubset hi
        have hF' : IsForest es (F.erase i) :=
          isForest_subset (Finset.erase_subset i F) hF
        have hIH := ih (F.erase i) hsub hF'
        have hnl : ¬ linked es (F.erase i) (es.get i).1 (es.get i).2.1 :=
          hF i hi
        have hmerge := ncomp_insert (hok i).1 (hok i).2 hnl
        rw [Finset.insert_erase hi] at hmerge
        have hcard : F.card = (F.erase i).card + 1 := by
          rw [Finset.card_erase_of_mem hi]
          have : 0 < F.card := Finset.card_pos.mpr ⟨i, hi⟩
          omega
        omega

/-- Every selection contains a forest with the same connectivity. -/
lemma exists_spanning_forest_subset {es : List (Nat × Nat × ℚ)} :
    ∀ S : Finset (Fin es.length), ∃ F ⊆ S, IsForest es F
      ∧ ∀ u v, linked es S u v ↔ linked es F u v := by
  intro S
  induction S using Finset.strongInduction with
  | _ S ih =>
      by_cases hS : IsForest es S
      · exact ⟨S, Finset.Subset.refl S, hS, fun u v => Iff.rfl⟩
      · have : ∃ j ∈ S, linked es (S.erase j) (es.get j).1 (es.get j).2.1 := by
          unfold IsForest at hS
          push_neg at hS
          exact hS
        obtain ⟨j, hj, hred⟩ := this
        obtain ⟨F, hFsub, hFfor, hFiff⟩ :=
          ih (S.erase j) (Finset.erase_ssubset hj)
        refine ⟨F, hFsub.trans (Finset.erase_subset j S), hFfor,
          fun u v => ?_⟩
        rw [← hFiff u v]
        exact ⟨fun h => linked_of_redundant hj hred h,
          fun h => linked_mono (Finset.erase_subset j S) h⟩

/-- Lower bound: any selection has at least `n - ncomp` edges; equality
forces it to be a forest. -/
lemma card_ncomp_ge {es : List (Nat × Nat × ℚ)} {n : Nat}
    (hok : EdgesOk n es) (S : Finset (Fin es.length)) :
    n ≤ S.card + ncomp es n S := by
  obtain ⟨F, hFsub, hFfor, hFiff⟩ := @exists_spanning_forest_subset es S
  have h1 := forest_card hok hFfor
  have h2 : ncomp es n F = ncomp es n S :=
    (ncomp_congr (fun u v => hFiff u v)).symm
  have h3 : F.card ≤ S.card := Finset.card_le_card hFsub
  omega

lemma isForest_of_card_ncomp {es : List (Nat × Nat × ℚ)} {n : Nat}
    (hok : EdgesOk n es) {S : Finset (Fin es.length)}
    (h : S.card + ncomp es n S = n) : IsForest es S := by
  obtain ⟨F, hFsub, hFfor, hFiff⟩ := @exists_spanning_forest_subset es S
  have h1 := forest_card hok hFfor
  have h2 : ncomp es n F = ncomp es n S :=
    (ncomp_congr (fun u v => hFiff u v)).symm
  have h3 : S.card ≤ F.card := by omega
  have : F = S := Finset.eq_of_subset_of_card_le hFsub h3
  exact this ▸ hFfor

/-! ## Spanning and minimum bases -/

lemma ncomp_eq_one {es : List (Nat × Nat × ℚ)} {n : Nat}
    {S : Finset (Fin es.length)} (h0 : 0 < n)
    (hall : ∀ v, v < n → linked es S v 0) : ncomp es n S = 1 := by
  unfold ncomp
  rw [Finset.card_eq_one]
  refine ⟨0, ?_⟩
  ext v
  rw [mem_ncompFilter_iff, Finset.mem_singleton]
  constructor
  · rintro ⟨hv, hcr⟩
    have h1 : classRep es S v = classRep es S 0 := classRep_congr (hall v hv)
    have h2 : classRep es S 0 ≤ 0 := classRep_le 0
    omega
  · rintro rfl
    exact ⟨h0, Nat.le_antisymm (classRep_le 0) (Nat.zero_le _)⟩

lemma linked_zero_of_ncomp_one {es : List (Nat × Nat × ℚ)} {n : Nat}
    {S : Finset (Fin es.length)} (h0 : 0 < n) (h1 : ncomp es n S = 1) :
    ∀ v, v < n → linked es S v 0 := by
  have h0mem : 0 ∈ (Finset.range n).filter (fun v => classRep es S v = v) :=
    mem_ncompFilter_iff.mpr ⟨h0, Nat.le_antisymm (classRep_le 0) (Nat.zero_le _)⟩
  obtain ⟨m, hm⟩ := Finset.card_eq_one.mp h1
  intro v hv
  have hcv := @classRep_mem_ncompFilter es S n v hv
  rw [hm, Finset.mem_singleton] at h0mem hcv
  have : classRep es S v = 0 := by omega
  exact linked_symm (this ▸ classRep_linked v)

/-- A selection connecting every vertex to `0` spans the whole graph. -/
lemma spans_of_all_linked {es : List (Nat × Nat × ℚ)} {n : Nat}
    {A : Finset (Fin es.length)} (hok : EdgesOk n es)
    (hall : ∀ v, v < n → linked es A v 0) : Spans es A := by
  intro u v h
  induction h with
  | refl => exact Relation.ReflTransGen.refl
  | @tail w z _ hstep ih =>
      obtain ⟨k, _, hork⟩ := hstep
      have hk := hok k
      have hwz : linked es A w z := by
        rcases hork with ⟨h1, h2⟩ | ⟨h1, h2⟩
        · exact (hall w (by omega)).trans (linked_symm (hall z (by omega)))
        · exact (hall w (by omega)).trans (linked_symm (hall z (by omega)))
      exact ih.trans hwz

/-- A selection linking the endpoints of every edge spans the whole graph. -/
lemma spans_of_edges_linked {es : List (Nat × Nat × ℚ)}
    {A : Finset (Fin es.length)}
    (hall : ∀ k : Fin es.length, linked es A (es.get k).1 (es.get k).2.1) :
    Spans es A := by
  intro u v h
  induction h with
  | refl => exact Relation.ReflTransGen.refl
  | @tail w z _ hstep ih =>
      obtain ⟨k, _, hork⟩ := hstep
      have hwz : linked es A w z := by
        rcases hork with ⟨h1, h2⟩ | ⟨h1, h2⟩
        · exact h1 ▸ h2 ▸ hall k
        · exact h1 ▸ h2 ▸ linked_symm (hall k)
      exact ih.trans hwz

/-- A vertex touched by no edge of the selection is linked only to itself. -/
lemma linked_isolated {es : List (Nat × Nat × ℚ)}
    {A : Finset (Fin es.length)} {u v : Nat}
    (hiso : ∀ k ∈ A, (es.get k).1 ≠ u ∧ (es.get k).2.1 ≠ u)
    (h : linked es A u v) : u = v := by
  rcases Relation.ReflTransGen.cases_head h with he | ⟨c, hstep, _⟩
  · exact he
  · obtain ⟨k, hk, hork⟩ := hstep
    rcases hork with ⟨h1, _⟩ | ⟨_, h2⟩
    · exact absurd h1 (hiso k hk).1
    · exact absurd h2 (hiso k hk).2

lemma minBasis_weight_unique {es : List (Nat × Nat × ℚ)}
    {M1 M2 : Finset (Fin es.length)} (h1 : MinBasis es M1)
    (h2 : MinBasis es M2) : weightF es M1 = weightF es M2 :=
  le_antisymm (h1.2.2 M2 h2.1 h2.2.1) (h2.2.2 M1 h1.1 h1.2.1)

lemma exists_minBasis (es : List (Nat × Nat × ℚ)) :
    ∃ M, MinBasis es M := by
  classical
  obtain ⟨F0, -, hF0f, hF0iff⟩ :=
    @exists_spanning_forest_subset es Finset.univ
  have hF0s : Spans es F0 := fun u v h => (hF0iff u v).mp h
  obtain ⟨M, hMmem, hMmin⟩ := Finset.exists_min_image
    ((Finset.univ : Finset (Finset (Fin es.length))).filter
      (fun S => IsForest es S ∧ Spans es S)) (weightF es)
    ⟨F0, Finset.mem_filter.mpr ⟨Finset.mem_univ _, hF0f, hF0s⟩⟩
  obtain ⟨-, hMf, hMs⟩ := Finset.mem_filter.mp hMmem
  exact ⟨M, hMf, hMs, fun T hTf hTs =>
    hMmin T (Finset.mem_filter.mpr ⟨Finset.mem_univ _, hTf, hTs⟩)⟩

/-- A spanning forest contained in a minimum basis is that basis. -/
lemma spanning_forest_eq_minBasis {es : List (Nat × Nat × ℚ)} {n : Nat}
    (hok : EdgesOk n es) (hconn : GraphConnected n es) (h0 : 0 < n)
    {A M : Finset (Fin es.length)} (hAf : IsForest es A) (hAs : Spans es A)
    (hM : MinBasis es M) (hAM : A ⊆ M) : A = M := by
  have hA1 : ncomp es n A = 1 :=
    ncomp_eq_one h0 (fun v hv => hAs v 0 (hconn v hv))
  have hM1 : ncomp es n M = 1 :=
    ncomp_eq_one h0 (fun v hv => hM.2.1 v 0 (hconn v hv))
  have h1 := forest_card hok hAf
  have h2 := forest_card hok hM.1
  exact Finset.eq_of_subset_of_card_le hAM (by omega)

/-- Exchange step, orientation-normalized: a cheapest cut-crossing edge can
be added to a partial selection while staying inside some minimum basis. -/
lemma exchange_aux {es : List (Nat × Nat × ℚ)} {n : Nat}
    (hok : EdgesOk n es) (hconn : GraphConnected n es) (h0 : 0 < n)
    {M A : Finset (Fin es.length)} (hM : MinBasis es M) (hAM : A ⊆ M)
    {C : Nat → Prop}
    (hA : ∀ k ∈ A, (C (es.get k).1 ↔ C (es.get k).2.1))
    {i : Fin es.length} {x y : Nat}
    (hxy : (es.get i).1 = x ∧ (es.get i).2.1 = y
      ∨ (es.get i).1 = y ∧ (es.get i).2.1 = x)
    (hCx : C x) (hCy : ¬ C y)
    (hmin : ∀ k : Fin es.length,
      (C (es.get k).1 ∧ ¬ C (es.get k).2.1)
        ∨ (C (es.get k).2.1 ∧ ¬ C (es.get k).1) →
      (es.get i).2.2 ≤ (es.get k).2.2) :
    ∃ M2, MinBasis es M2 ∧ insert i A ⊆ M2 := by
  obtain ⟨hMf, hMs, hMmin⟩ := hM
  by_cases hiM : i ∈ M
  · exact ⟨M, ⟨hMf, hMs, hMmin⟩, Finset.insert_subset hiM hAM⟩
  · have hlinkM : linked es M x y :=
      hMs x y (Relation.ReflTransGen.single ⟨i, Finset.mem_univ i, hxy⟩)
    obtain ⟨j, hjM, p, q, hor, hCp, hCq, hseg1, hseg2⟩ :=
      crossing_lemma hlinkM hCx hCy
    have hjA : j ∉ A := by
      intro hjA
      have hiff := hA j hjA
      rcases hor with ⟨h1, h2⟩ | ⟨h1, h2⟩
      · rw [h1, h2] at hiff; exact hCq (hiff.mp hCp)
      · rw [h1, h2] at hiff; exact hCq (hiff.mpr hCp)
    have hwij : (es.get i).2.2 ≤ (es.get j).2.2 := by
      apply hmin j
      rcases hor with ⟨h1, h2⟩ | ⟨h1, h2⟩
      · refine Or.inl ⟨?_, ?_⟩
        · rw [h1]; exact hCp
        · rw [h2]; exact hCq
      · refine Or.inr ⟨?_, ?_⟩
        · rw [h2]; exact hCp
        · rw [h1]; exact hCq
    set M2 := insert i (M.erase j) with hM2
    have hierase : i ∉ M.erase j := fun h => hiM (Finset.mem_of_mem_erase h)
    have hsub' : M.erase j ⊆ M2 := Finset.subset_insert i (M.erase j)
    have hxyM2 : linked es M2 x y := by
      have hi2 : i ∈ M2 := Finset.mem_insert_self i (M.erase j)
      rcases hxy with ⟨h1, h2⟩ | ⟨h1, h2⟩
      · have hl := linked_of_mem hi2
        rw [h1, h2] at hl; exact hl
      · have hl := linked_of_mem hi2
        rw [h1, h2] at hl; exact linked_symm hl
    have hjlink : linked es M2 (es.get j).1 (es.get j).2.1 := by
      have hpq : linked es M2 p q :=
        ((linked_symm (linked_mono hsub' hseg1)).trans hxyM2).trans
          (linked_symm (linked_mono hsub' hseg2))
      rcases hor with ⟨h1, h2⟩ | ⟨h1, h2⟩
      · rw [h1, h2]; exact hpq
      · rw [h1, h2]; exact linked_symm hpq
    have htrans : ∀ u v, linked es M u v → linked es M2 u v := by
      intro u v h
      rw [← Finset.insert_erase hjM] at h
      rcases linked_insert_iff.mp h with h1 | ⟨h2a, h2b⟩ | ⟨h3a, h3b⟩
      · exact linked_mono hsub' h1
      · exact ((linked_mono hsub' h2a).trans hjlink).trans
          (linked_mono hsub' h2b)
      · exact ((linked_mono hsub' h3a).trans (linked_symm hjlink)).trans
          (linked_mono hsub' h3b)
    have hM2s : Spans es M2 := fun u v h => htrans u v (hMs u v h)
    have hcardM : 0 < M.card := Finset.card_pos.mpr ⟨j, hjM⟩
    have hcard2 : M2.card = M.card := by
      rw [hM2, Finset.card_insert_of_not_mem hierase,
        Finset.card_erase_of_mem hjM]
      omega
    have hnc2 : ncomp es n M2 = 1 :=
      ncomp_eq_one h0 (fun v hv => hM2s v 0 (hconn v hv))
    have hncM : ncomp es n M = 1 :=
      ncomp_eq_one h0 (fun v hv => hMs v 0 (hconn v hv))
    have hfc := forest_card hok hMf
    rw [hncM] at hfc
    have hM2f : IsForest es M2 :=
      isForest_of_card_ncomp hok (by rw [hcard2, hnc2]; omega)
    have hw2 : weightF es M2 ≤ weightF es M := by
      have h1 : weightF es M2
          = (es.get i).2.2 + weightF es (M.erase j) := by
        unfold weightF
        rw [hM2]
        exact Finset.sum_insert hierase
      have h2 : weightF es (M.erase j) + (es.get j).2.2 = weightF es M := by
        unfold weightF
        exact Finset.sum_erase_add M _ hjM
      linarith
    have hw2' : weightF es M = weightF es M2 :=
      le_antisymm (hMmin M2 hM2f hM2s) hw2
    refine ⟨M2, ⟨hM2f, hM2s, fun T hTf hTs => ?_⟩, ?_⟩
    · rw [← hw2']; exact hMmin T hTf hTs
    · refine Finset.insert_subset (Finset.mem_insert_self i _) ?_
      intro a ha
      exact hsub' (Finset.mem_erase.mpr ⟨fun he => hjA (he ▸ ha), hAM ha⟩)

/-- Cut lemma: if no selected edge crosses the cut `C` and `i` is a cheapest
crossing edge, then `i` extends the selection inside some minimum basis. -/
lemma cut_extend {es : List (Nat × Nat × ℚ)} {n : Nat}
    (hok : EdgesOk n es) (hconn : GraphConnected n es) (h0 : 0 < n)
    {M A : Finset (Fin es.length)} (hM : MinBasis es M) (hAM : A ⊆ M)
    {C : Nat → Prop}
    (hA : ∀ k ∈ A, (C (es.get k).1 ↔ C (es.get k).2.1))
    {i : Fin es.length}
    (hcross : (C (es.get i).1 ∧ ¬ C (es.get i).2.1)
      ∨ (C (es.get i).2.1 ∧ ¬ C (es.get i).1))
    (hmin : ∀ k : Fin es.length,
      (C (es.get k).1 ∧ ¬ C (es.get k).2.1)
        ∨ (C (es.get k).2.1 ∧ ¬ C (es.get k).1) →
      (es.get i).2.2 ≤ (es.get k).2.2) :
    ∃ M2, MinBasis es M2 ∧ insert i A ⊆ M2 := by
  rcases hcross with ⟨h1, h2⟩ | ⟨h1, h2⟩
  · exact exchange_aux hok hconn h0 hM hAM hA (Or.inl ⟨rfl, rfl⟩) h1 h2 hmin
  · exact exchange_aux hok hconn h0 hM hAM hA (Or.inr ⟨rfl, rfl⟩) h1 h2 hmin

/-! ## Kruskal: the union-find labelling tracks connectivity -/

lemma pfind_range {n u : Nat} (h : u < n) : pfind (List.range n) u = u := by
  unfold pfind
  rw [List.getD_eq_getElem _ _ (by simpa using h)]
  simp

lemma pfind_punion {part : List Nat} {cu cv u : Nat} (h : u < part.length) :
    pfind (punion part cu cv) u
      = if pfind part u = cv then cu else pfind part u := by
  unfold punion pfind
  rw [List.getD_eq_getElem _ _ (by simpa using h), List.getElem_map,
    List.getD_eq_getElem _ _ h]

/-- Relabelling the two merged components keeps the label map faithful to
connectivity with the new edge inserted. -/
lemma punion_pfind_iff {es : List (Nat × Nat × ℚ)} {n : Nat}
    {part : List Nat} (hlen : part.length = n)
    {A : Finset (Fin es.length)}
    (hinv : ∀ u v, u < n → v < n →
      (pfind part u = pfind part v ↔ linked es A u v))
    {i : Fin es.length} (ha : (es.get i).1 < n) (hb : (es.get i).2.1 < n)
    (_hne : pfind part (es.get i).1 ≠ pfind part (es.get i).2.1) :
    ∀ u v, u < n → v < n →
      (pfind (punion part (pfind part (es.get i).1)
          (pfind part (es.get i).2.1)) u
        = pfind (punion part (pfind part (es.get i).1)
          (pfind part (es.get i).2.1)) v
        ↔ linked es (insert i A) u v) := by
  intro u v hu hv
  have hu' : u < part.length := by omega
  have hv' : v < part.length := by omega
  rw [pfind_punion hu', pfind_punion hv', linked_insert_iff,
    ← hinv u v hu hv, ← hinv u _ hu ha, ← hinv _ v hb hv,
    ← hinv u _ hu hb, ← hinv _ v ha hv]
  by_cases h1 : pfind part u = pfind part (es.get i).2.1 <;>
    by_cases h2 : pfind part v = pfind part (es.get i).2.1
  · rw [if_pos h1, if_pos h2]; omega
  · rw [if_pos h1, if_neg h2]; omega
  · rw [if_neg h1, if_pos h2]; omega
  · rw [if_neg h1, if_neg h2]; omega

/-- Invariant of the Kruskal scan: the kept edges stay inside a minimum
basis, form a forest faithfully labelled by the partition array, and every
scanned edge has linked endpoints. -/
lemma kruskal_fold_invariant {es : List (Nat × Nat × ℚ)} {n : Nat}
    (hok : EdgesOk n es) (hconn : GraphConnected n es) (h0 : 0 < n) :
    ∀ (todo done : List (Fin es.length)) (part : List Nat)
      (chosen : List (Fin es.length)),
      List.Pairwise (fun a b => (es.get a).2.2 ≤ (es.get b).2.2) todo →
      (∀ k : Fin es.length, k ∈ done ∨ k ∈ todo) →
      (∀ k ∈ done, linked es chosen.toFinset (es.get k).1 (es.get k).2.1) →
      part.length = n →
      (∀ u v, u < n → v < n →
        (pfind part u = pfind part v ↔ linked es chosen.toFinset u v)) →
      chosen.Nodup →
      IsForest es chosen.toFinset →
      (∃ M, MinBasis es M ∧ chosen.toFinset ⊆ M) →
      (todo.foldl (kruskalFold es) (part, chosen)).2.Nodup ∧
      IsForest es (todo.foldl (kruskalFold es) (part, chosen)).2.toFinset ∧
      Spans es (todo.foldl (kruskalFold es) (part, chosen)).2.toFinset ∧
      ∃ M, MinBasis es M
        ∧ (todo.foldl (kruskalFold es) (part, chosen)).2.toFinset ⊆ M := by
  intro todo
  induction todo with
  | nil =>
      intro done part chosen _ hcover hdone hlen hinv hnd hforest hsubM
      refine ⟨hnd, hforest, ?_, hsubM⟩
      apply spans_of_edges_linked
      intro k
      rcases hcover k with hk | hk
      · exact hdone k hk
      · exact absurd hk (List.not_mem_nil k)
  | cons i rest ih =>
      intro done part chosen hsort hcover hdone hlen hinv hnd hforest hsubM
      obtain ⟨hhead, htail⟩ := List.pairwise_cons.mp hsort
      rw [List.foldl_cons]
      have hk1 := (hok i).1
      have hk2 := (hok i).2
      have hcover' : ∀ k : Fin es.length, k ∈ done ++ [i] ∨ k ∈ rest := by
        intro k
        rcases hcover k with hk | hk
        · exact Or.inl (List.mem_append_left _ hk)
        · rcases List.mem_cons.mp hk with rfl | hk
          · exact Or.inl (List.mem_append_right _ (List.mem_singleton_self _))
          · exact Or.inr hk
      by_cases hcc : pfind part (es.get i).1 = pfind part (es.get i).2.1
      · have hstep : kruskalFold es (part, chosen) i = (part, chosen) := by
          simp only [kruskalFold]
          rw [if_pos hcc]
        rw [hstep]
        refine ih (done ++ [i]) part chosen htail hcover' ?_ hlen hinv hnd
          hforest hsubM
        intro k hk
        rcases List.mem_append.mp hk with hk | hk
        · exact hdone k hk
        · rw [List.mem_singleton] at hk
          subst hk
          exact (hinv _ _ hk1 hk2).mp hcc
      · have hnl : ¬ linked es chosen.toFinset (es.get i).1 (es.get i).2.1 :=
          fun h => hcc ((hinv _ _ hk1 hk2).mpr h)
        have hstep : kruskalFold es (part, chosen) i
            = (punion part (pfind part (es.get i).1)
                (pfind part (es.get i).2.1), chosen ++ [i]) := by
          simp only [kruskalFold]
          rw [if_neg hcc]
        rw [hstep]
        have htf : (chosen ++ [i]).toFinset = insert i chosen.toFinset := by
          simp only [List.toFinset_append, List.toFinset_cons,
            List.toFinset_nil, insert_emptyc_eq]
          ext a
          simp [or_comm]
        have hic : i ∉ chosen :=
          fun h => hnl (linked_of_mem (List.mem_toFinset.mpr h))
        refine ih (done ++ [i]) _ (chosen ++ [i]) htail hcover' ?_ ?_ ?_ ?_
          ?_ ?_
        · intro k hk
          rw [htf]
          rcases List.mem_append.mp hk with hk | hk
          · exact linked_mono (Finset.subset_insert i _) (hdone k hk)
          · rw [List.mem_singleton] at hk
            subst hk
            exact linked_of_mem (Finset.mem_insert_self _ _)
        · simpa [punion] using hlen
        · intro u v hu hv
          rw [htf]
          exact punion_pfind_iff hlen hinv hk1 hk2 hcc u v hu hv
        · refine List.nodup_append.mpr ⟨hnd, List.nodup_singleton i, ?_⟩
          intro a ha hai
          rw [List.mem_singleton] at hai
          subst hai
          exact hic ha
        · rw [htf]
          exact isForest_insert hforest hnl
        · have hA : ∀ k ∈ chosen.toFinset,
              (linked es chosen.toFinset (es.get i).1 (es.get k).1
                ↔ linked es chosen.toFinset (es.get i).1 (es.get k).2.1) := by
            intro k hk
            have hl := linked_of_mem hk
            exact ⟨fun h => h.trans hl, fun h => h.trans (linked_symm hl)⟩
          have hcross :
              (linked es chosen.toFinset (es.get i).1 (es.get i).1
                ∧ ¬ linked es chosen.toFinset (es.get i).1 (es.get i).2.1)
              ∨ (linked es chosen.toFinset (es.get i).1 (es.get i).2.1
                ∧ ¬ linked es chosen.toFinset (es.get i).1 (es.get i).1) :=
            Or.inl ⟨Relation.ReflTransGen.refl, hnl⟩
          have hmin : ∀ k : Fin es.length,
              (linked es chosen.toFinset (es.get i).1 (es.get k).1
                  ∧ ¬ linked es chosen.toFinset (es.get i).1 (es.get k).2.1)
                ∨ (linked es chosen.toFinset (es.get i).1 (es.get k).2.1
                  ∧ ¬ linked es chosen.toFinset (es.get i).1 (es.get k).1) →
              (es.get i).2.2 ≤ (es.get k).2.2 := by
            intro k hcross2
            have hknl : ¬ linked es chosen.toFinset (es.get k).1
                (es.get k).2.1 := by
              rcases hcross2 with ⟨hc1, hc2⟩ | ⟨hc1, hc2⟩
              · exact fun h => hc2 (hc1.trans h)
              · exact fun h => hc2 (hc1.trans (linked_symm h))
            rcases hcover k with hk | hk
            · exact absurd (hdone k hk) hknl
            · rcases List.mem_cons.mp hk with rfl | hk
              · exact le_refl _
              · exact hhead k hk
          obtain ⟨M, hMb, hAM⟩ := hsubM
          obtain ⟨M2, hM2b, hsub2⟩ := @cut_extend es n hok hconn h0 M
            chosen.toFinset hMb hAM
            (fun v => linked es chosen.toFinset (es.get i).1 v) hA i hcross
            hmin
          rw [htf]
          exact ⟨M2, hM2b, hsub2⟩

/-! ## Prim: the scan picks a cheapest crossing edge -/

lemma crossesT_iff {es : List (Nat × Nat × ℚ)} {inT : List Nat}
    {k : Fin es.length} :
    crossesT es inT k ↔ ¬ ((es.get k).1 ∈ inT ↔ (es.get k).2.1 ∈ inT) := by
  unfold crossesT
  rw [ne_eq, decide_eq_decide]

lemma primPick_fold_spec {es : List (Nat × Nat × ℚ)} (inT : List Nat) :
    ∀ (l : List (Fin es.length)) (b : Option (Fin es.length)),
      (∀ bi, b = some bi → crossesT es inT bi) →
      (l.foldl (primPickStep es inT) b = none →
          b = none ∧ ∀ k ∈ l, ¬ crossesT es inT k)
        ∧ ∀ j, l.foldl (primPickStep es inT) b = some j →
            crossesT es inT j
            ∧ (∀ k ∈ l, crossesT es inT k →
                (es.get j).2.2 ≤ (es.get k).2.2)
            ∧ (∀ bi, b = some bi → (es.get j).2.2 ≤ (es.get bi).2.2) := by
  intro l
  induction l with
  | nil =>
      intro b hb
      rw [List.foldl_nil]
      refine ⟨fun hr => ⟨hr, fun k hk => absurd hk (List.not_mem_nil k)⟩, ?_⟩
      intro j hj
      refine ⟨hb j hj, fun k hk => absurd hk (List.not_mem_nil k), ?_⟩
      intro bi hbi
      rw [hj] at hbi
      cases Option.some.inj hbi
      exact le_refl _
  | cons i t ih =>
      intro b hb
      rw [List.foldl_cons]
      by_cases hcr : decide ((es.get i).1 ∈ inT)
          ≠ decide ((es.get i).2.1 ∈ inT)
      · cases b with
        | none =>
            have hstep : primPickStep es inT none i = some i := by
              simp only [primPickStep, if_pos hcr]
            rw [hstep]
            have hbs : ∀ bi, (some i : Option (Fin es.length)) = some bi
                → crossesT es inT bi := by
              intro bi hbi
              cases Option.some.inj hbi
              exact hcr
            obtain ⟨ihn, ihs⟩ := ih (some i) hbs
            refine ⟨fun hr => absurd (ihn hr).1 (by simp), ?_⟩
            intro j hj
            obtain ⟨h1, h2, h3⟩ := ihs j hj
            refine ⟨h1, ?_, fun bi hbi => by simp at hbi⟩
            intro k hk hck
            rcases List.mem_cons.mp hk with rfl | hk
            · exact h3 k rfl
            · exact h2 k hk hck
        | some bi =>
            by_cases hlt : (es.get i).2.2 < (es.get bi).2.2
            · have hstep : primPickStep es inT (some bi) i = some i := by
                simp only [primPickStep, if_pos hcr, if_pos hlt]
              rw [hstep]
              have hbs : ∀ bj, (some i : Option (Fin es.length)) = some bj
                  → crossesT es inT bj := by
                intro bj hbj
                cases Option.some.inj hbj
                exact hcr
              obtain ⟨ihn, ihs⟩ := ih (some i) hbs
              refine ⟨fun hr => absurd (ihn hr).1 (by simp), ?_⟩
              intro j hj
              obtain ⟨h1, h2, h3⟩ := ihs j hj
              refine ⟨h1, ?_, ?_⟩
              · intro k hk hck
                rcases List.mem_cons.mp hk with rfl | hk
                · exact h3 k rfl
                · exact h2 k hk hck
              · intro bj hbj
                cases Option.some.inj hbj
                exact le_trans (h3 i rfl) (le_of_lt hlt)
            · have hstep : primPickStep es inT (some bi) i = some bi := by
                simp only [primPickStep, if_pos hcr, if_neg hlt]
              rw [hstep]
              obtain ⟨ihn, ihs⟩ := ih (some bi) hb
              refine ⟨fun hr => absurd (ihn hr).1 (by simp), ?_⟩
              intro j hj
              obtain ⟨h1, h2, h3⟩ := ihs j hj
              refine ⟨h1, ?_, h3⟩
              intro k hk hck
              rcases List.mem_cons.mp hk with rfl | hk
              · exact le_trans (h3 bi rfl) (not_lt.mp hlt)
              · exact h2 k hk hck
      · have hstep : primPickStep es inT b i = b := by
          cases b with
          | none => simp only [primPickStep, if_neg hcr]
          | some bi => simp only [primPickStep, if_neg hcr]
        rw [hstep]
        obtain ⟨ihn, ihs⟩ := ih b hb
        refine ⟨fun hr => ?_, ?_⟩
        · obtain ⟨h1, h2⟩ := ihn hr
          refine ⟨h1, fun k hk => ?_⟩
          rcases List.mem_cons.mp hk with rfl | hk
          · exact hcr
          · exact h2 k hk
        · intro j hj
          obtain ⟨h1, h2, h3⟩ := ihs j hj
          refine ⟨h1, fun k hk hck => ?_, h3⟩
          rcases List.mem_cons.mp hk with rfl | hk
          · exact absurd hck hcr
          · exact h2 k hk hck

lemma primPick_none {es : List (Nat × Nat × ℚ)} {inT : List Nat}
    (h : primPick es inT = none) :
    ∀ k : Fin es.length, ¬ crossesT es inT k := by
  have hspec := (primPick_fold_spec inT (List.finRange es.length) none
    (fun bi hbi => by simp at hbi)).1
  unfold primPick at h
  exact fun k => (hspec h).2 k (List.mem_finRange k)

lemma primPick_some {es : List (Nat × Nat × ℚ)} {inT : List Nat}
    {i : Fin es.length} (h : primPick es inT = some i) :
    crossesT es inT i
      ∧ ∀ k : Fin es.length, crossesT es inT k →
          (es.get i).2.2 ≤ (es.get k).2.2 := by
  have hspec := (primPick_fold_spec inT (List.finRange es.length) none
    (fun bi hbi => by simp at hbi)).2
  unfold primPick at h
  obtain ⟨h1, h2, -⟩ := hspec i h
  exact ⟨h1, fun k hk => h2 k (List.mem_finRange k) hk⟩

lemma primGo_succ_none {es : List (Nat × Nat × ℚ)} {fuel : Nat}
    {inT : List Nat} {acc : List (Fin es.length)}
    (h : primPick es inT = none) :
    primGo es (fuel + 1) inT acc = acc := by
  simp only [primGo, h]

lemma primGo_succ_some {es : List (Nat × Nat × ℚ)} {fuel : Nat}
    {inT : List Nat} {acc : List (Fin es.length)} {i : Fin es.length}
    (h : primPick es inT = some i) :
    primGo es (fuel + 1) inT acc
      = primGo es fuel
        (inT ++ [if (es.get i).1 ∈ inT then (es.get i).2.1 else (es.get i).1])
        (acc ++ [i]) := by
  simp only [primGo, h]

/-- Appending the fresh endpoint keeps the frontier list equal to the
component of vertex `0` in the grown tree. -/
lemma prim_inT_update {es : List (Nat × Nat × ℚ)} {A : Finset (Fin es.length)}
    {inT : List Nat} {i : Fin es.length} {ins out : Nat}
    (hio : (es.get i).1 = ins ∧ (es.get i).2.1 = out
      ∨ (es.get i).1 = out ∧ (es.get i).2.1 = ins)
    (hins : ins ∈ inT) (hout : out ∉ inT)
    (hiT : ∀ v, v ∈ inT ↔ linked es A v 0)
    (hend : ∀ k ∈ A, (es.get k).1 ∈ inT ∧ (es.get k).2.1 ∈ inT) :
    ∀ v, v ∈ inT ++ [out] ↔ linked es (insert i A) v 0 := by
  have hiso : ∀ k ∈ A, (es.get k).1 ≠ out ∧ (es.get k).2.1 ≠ out := by
    intro k hk
    obtain ⟨h1, h2⟩ := hend k hk
    exact ⟨fun he => hout (he ▸ h1), fun he => hout (he ▸ h2)⟩
  intro v
  rw [List.mem_append, List.mem_singleton]
  constructor
  · rintro (hv | rfl)
    · exact linked_mono (Finset.subset_insert i A) ((hiT v).mp hv)
    · have hstep : estep es (insert i A) v ins :=
        ⟨i, Finset.mem_insert_self i A, by tauto⟩
      exact Relation.ReflTransGen.head hstep
        (linked_mono (Finset.subset_insert i A) ((hiT ins).mp hins))
  · intro h
    rcases linked_insert_iff.mp h with h1 | ⟨h2a, h2b⟩ | ⟨h3a, h3b⟩
    · exact Or.inl ((hiT v).mpr h1)
    · rcases hio with ⟨hx, hy⟩ | ⟨hx, hy⟩
      · rw [hy] at h2b
        exact absurd ((hiT out).mpr h2b) hout
      · rw [hx] at h2a
        exact Or.inr (linked_isolated hiso (linked_symm h2a)).symm
    · rcases hio with ⟨hx, hy⟩ | ⟨hx, hy⟩
      · rw [hy] at h3a
        exact Or.inr (linked_isolated hiso (linked_symm h3a)).symm
      · rw [hx] at h3b
        exact absurd ((hiT out).mpr h3b) hout

/-- Invariant of the Prim growth loop: the accumulated edges stay inside a
minimum basis, form a forest on the frontier, and on exit they span. -/
lemma primGo_invariant {es : List (Nat × Nat × ℚ)} {n : Nat}
    (hok : EdgesOk n es) (hconn : GraphConnected n es) (h0 : 0 < n) :
    ∀ (fuel : Nat) (inT : List Nat) (acc : List (Fin es.length)),
      (∀ v, v ∈ inT ↔ linked es acc.toFinset v 0) →
      (∀ k ∈ acc.toFinset, (es.get k).1 ∈ inT ∧ (es.get k).2.1 ∈ inT) →
      acc.Nodup →
      IsForest es acc.toFinset →
      (∃ M, MinBasis es M ∧ acc.toFinset ⊆ M) →
      fuel + acc.toFinset.card + 1 = n →
      (primGo es fuel inT acc).Nodup
        ∧ IsForest es (primGo es fuel inT acc).toFinset
        ∧ Spans es (primGo es fuel inT acc).toFinset
        ∧ ∃ M, MinBasis es M ∧ (primGo es fuel inT acc).toFinset ⊆ M := by
  intro fuel
  induction fuel with
  | zero =>
      intro inT acc hiT hend hnd hforest hsubM hfuel
      rw [show primGo es 0 inT acc = acc from rfl]
      refine ⟨hnd, hforest, ?_, hsubM⟩
      have hfc := forest_card hok hforest
      have hnc : ncomp es n acc.toFinset = 1 := by omega
      exact spans_of_all_linked hok (linked_zero_of_ncomp_one h0 hnc)
  | succ f ih =>
      intro inT acc hiT hend hnd hforest hsubM hfuel
      cases hpick : primPick es inT with
      | none =>
          rw [primGo_succ_none hpick]
          refine ⟨hnd, hforest, ?_, hsubM⟩
          have hnone := primPick_none hpick
          have hall : ∀ v, v < n → v ∈ inT := by
            intro v hv
            by_contra hvni
            have h0in : (0 : Nat) ∈ inT :=
              (hiT 0).mpr Relation.ReflTransGen.refl
            have hlink : linked es Finset.univ 0 v := linked_symm (hconn v hv)
            obtain ⟨j, -, hj⟩ := @crossing_exists es Finset.univ
              (fun w => w ∈ inT) 0 v hlink h0in hvni
            refine hnone j ?_
            rw [crossesT_iff]
            tauto
          exact spans_of_all_linked hok
            (fun v hv => (hiT v).mp (hall v hv))
      | some i =>
          rw [primGo_succ_some hpick]
          obtain ⟨hcrI, hminI⟩ := primPick_some hpick
          have hcr' : ¬ ((es.get i).1 ∈ inT ↔ (es.get i).2.1 ∈ inT) :=
            crossesT_iff.mp hcrI
          obtain ⟨ins, out, hio, hins, hout, hifeq⟩ :
              ∃ ins out, ((es.get i).1 = ins ∧ (es.get i).2.1 = out
                  ∨ (es.get i).1 = out ∧ (es.get i).2.1 = ins)
                ∧ ins ∈ inT ∧ out ∉ inT
                ∧ (if (es.get i).1 ∈ inT then (es.get i).2.1
                    else (es.get i).1) = out := by
            by_cases ha : (es.get i).1 ∈ inT
            · have hb : (es.get i).2.1 ∉ inT :=
                fun hb => hcr' (iff_of_true ha hb)
              exact ⟨(es.get i).1, (es.get i).2.1, Or.inl ⟨rfl, rfl⟩, ha, hb,
                if_pos ha⟩
            · have hb : (es.get i).2.1 ∈ inT := by
                by_contra hb
                exact hcr' (iff_of_false ha hb)
              exact ⟨(es.get i).2.1, (es.get i).1, Or.inr ⟨rfl, rfl⟩, hb, ha,
                if_neg ha⟩
          rw [hifeq]
          have hnl : ¬ linked es acc.toFinset (es.get i).1 (es.get i).2.1 := by
            intro h
            apply hcr'
            constructor
            · intro h1
              exact (hiT _).mpr ((linked_symm h).trans ((hiT _).mp h1))
            · intro h2
              exact (hiT _).mpr (h.trans ((hiT _).mp h2))
          have htf : (acc ++ [i]).toFinset = insert i acc.toFinset := by
            simp only [List.toFinset_append, List.toFinset_cons,
              List.toFinset_nil, insert_emptyc_eq]
            ext a
            simp [or_comm]
          have hic : i ∉ acc :=
            fun h => hnl (linked_of_mem (List.mem_toFinset.mpr h))
          have hicF : i ∉ acc.toFinset := fun h => hnl (linked_of_mem h)
          refine ih (inT ++ [out]) (acc ++ [i]) ?_ ?_ ?_ ?_ ?_ ?_
          · rw [htf]
            exact prim_inT_update hio hins hout hiT hend
          · rw [htf]
            intro k hk
            rcases Finset.mem_insert.mp hk with rfl | hk
            · rcases hio with ⟨hx, hy⟩ | ⟨hx, hy⟩
              · constructor
                · rw [hx]; exact List.mem_append_left _ hins
                · rw [hy]
                  exact List.mem_append_right _ (List.mem_singleton_self _)
              · constructor
                · rw [hx]
                  exact List.mem_append_right _ (List.mem_singleton_self _)
                · rw [hy]; exact List.mem_append_left _ hins
            · obtain ⟨h1, h2⟩ := hend k hk
              exact ⟨List.mem_append_left _ h1, List.mem_append_left _ h2⟩
          · refine List.nodup_append.mpr ⟨hnd, List.nodup_singleton i, ?_⟩
            intro a ha' hai
            rw [List.mem_singleton] at hai
            subst hai
            exact hic ha'
          · rw [htf]
            exact isForest_insert hforest hnl
          · obtain ⟨M, hMb, hAM⟩ := hsubM
            have hA : ∀ k ∈ acc.toFinset,
                ((es.get k).1 ∈ inT ↔ (es.get k).2.1 ∈ inT) := by
              intro k hk
              obtain ⟨h1, h2⟩ := hend k hk
              exact iff_of_true h1 h2
            have hcross : ((es.get i).1 ∈ inT ∧ ¬ (es.get i).2.1 ∈ inT)
                ∨ ((es.get i).2.1 ∈ inT ∧ ¬ (es.get i).1 ∈ inT) := by
              tauto
            have hmin : ∀ k : Fin es.length,
                ((es.get k).1 ∈ inT ∧ ¬ (es.get k).2.1 ∈ inT)
                  ∨ ((es.get k).2.1 ∈ inT ∧ ¬ (es.get k).1 ∈ inT) →
                (es.get i).2.2 ≤ (es.get k).2.2 := by
              intro k hkc
              refine hminI k ?_
              rw [crossesT_iff]
              tauto
            obtain ⟨M2, hM2b, hsub2⟩ := @cut_extend es n hok hconn h0 M
              acc.toFinset hMb hAM (fun w => w ∈ inT) hA i hcross hmin
            rw [htf]
            exact ⟨M2, hM2b, hsub2⟩
          · rw [htf, Finset.card_insert_of_not_mem hicF]
            omega

/-! ## MST wrappers: totals -/

lemma mstStep_total (ns : List Int) :
    ∀ (l : List (Nat × Nat × ℚ)) (a : MstResult),
      (l.foldl (mstStep ns) a).total_weight = a.total_weight := by
  intro l
  induction l with
  | nil => intro a; rfl
  | cons e t ih =>
      intro a
      rw [List.foldl_cons, ih]
      unfold mstStep
      cases extOf? ns e.1 <;> cases extOf? ns e.2.1 <;> rfl

lemma mstAssemble_total (ns : List Int) (r : List (Nat × Nat × ℚ) × ℚ) :
    (mstAssemble ns r).total_weight = r.2 :=
  mstStep_total ns r.1 _

lemma edgesOk_buildEdges {src dst : List Int} {wf : Nat → ℚ}
    (hlen : src.length = dst.length) :
    EdgesOk (nodesOf src dst).length
      (buildEdges (nodesOf src dst) src dst wf) := by
  intro i
  have hi : (i : Nat) < src.length := by
    have h := i.isLt
    simpa [buildEdges] using h
  have hget : (buildEdges (nodesOf src dst) src dst wf).get i
      = (extIdx (nodesOf src dst) (src.getD i 0),
          extIdx (nodesOf src dst) (dst.getD i 0), wf i) := by
    rw [List.get_eq_getElem]
    simp [buildEdges]
  rw [hget]
  refine ⟨extIdx_lt_length (mem_nodesOf.mpr (Or.inl (getD_mem hi))), ?_⟩
  exact extIdx_lt_length (mem_nodesOf.mpr (Or.inr (getD_mem (hlen ▸ hi))))

lemma primSpec_total {es : List (Nat × Nat × ℚ)} {n : Nat}
    (hok : EdgesOk n es) (hconn : GraphConnected n es) (h0 : 0 < n)
    {M : Finset (Fin es.length)} (hM : MinBasis es M) :
    (primSpec n es).2 = weightF es M := by
  have hiT : ∀ v, v ∈ [0]
      ↔ linked es ([] : List (Fin es.length)).toFinset v 0 := by
    intro v
    rw [List.mem_singleton, List.toFinset_nil]
    exact ⟨fun h => h ▸ Relation.ReflTransGen.refl, fun h => linked_empty h⟩
  obtain ⟨hndR, hforestR, hspansR, M1, hM1, hsubM1⟩ :=
    primGo_invariant hok hconn h0 (n - 1) [0] [] hiT
      (fun k hk => absurd hk (by simp)) List.nodup_nil
      (fun k hk => absurd hk (by simp))
      ⟨M, hM, by rw [List.toFinset_nil]; exact Finset.empty_subset M⟩
      (by simp; omega)
  have heqM1 : (primGo es (n - 1) [0] []).toFinset = M1 :=
    spanning_forest_eq_minBasis hok hconn h0 hforestR hspansR hM1 hsubM1
  unfold primSpec
  rw [if_neg (by omega : ¬ n = 0)]
  simp only [List.map_map]
  rw [← List.sum_toFinset _ hndR, heqM1]
  exact minBasis_weight_unique hM1 hM

lemma kruskalSpec_total {es : List (Nat × Nat × ℚ)} {n : Nat}
    (hok : EdgesOk n es) (hconn : GraphConnected n es) (h0 : 0 < n)
    {M : Finset (Fin es.length)} (hM : MinBasis es M) :
    (kruskalSpec n es).2 = weightF es M := by
  have hsorted : List.Pairwise (fun a b => (es.get a).2.2 ≤ (es.get b).2.2)
      (kruskalOrder es) := by
    unfold kruskalOrder
    have ht : IsTotal (Fin es.length)
        (fun i j => (es.get i).2.2 ≤ (es.get j).2.2) :=
      ⟨fun a b => le_total _ _⟩
    have htr : IsTrans (Fin es.length)
        (fun i j => (es.get i).2.2 ≤ (es.get j).2.2) :=
      ⟨fun a b c hab hbc => le_trans hab hbc⟩
    exact List.sorted_insertionSort _ (List.finRange es.length)
  have hcover : ∀ k : Fin es.length,
      k ∈ ([] : List (Fin es.length)) ∨ k ∈ kruskalOrder es := by
    intro k
    refine Or.inr ?_
    unfold kruskalOrder
    exact (List.perm_insertionSort _ _).mem_iff.mpr (List.mem_finRange k)
  have hinv0 : ∀ u v, u < n → v < n →
      (pfind (List.range n) u = pfind (List.range n) v
        ↔ linked es ([] : List (Fin es.length)).toFinset u v) := by
    intro u v hu hv
    rw [pfind_range hu, pfind_range hv, List.toFinset_nil]
    exact ⟨fun h => h ▸ Relation.ReflTransGen.refl, fun h => linked_empty h⟩
  obtain ⟨hndR, hforestR, hspansR, M1, hM1, hsubM1⟩ :=
    kruskal_fold_invariant hok hconn h0 (kruskalOrder es) [] (List.range n)
      [] hsorted hcover (fun k hk => absurd hk (List.not_mem_nil k))
      (List.length_range n) hinv0 List.nodup_nil
      (fun k hk => absurd hk (by simp))
      ⟨M, hM, by rw [List.toFinset_nil]; exact Finset.empty_subset M⟩
  have heqM1 : ((kruskalOrder es).foldl (kruskalFold es)
      (List.range n, [])).2.toFinset = M1 :=
    spanning_forest_eq_minBasis hok hconn h0 hforestR hspansR hM1 hsubM1
  unfold kruskalSpec
  simp only [List.map_map]
  rw [← List.sum_toFinset _ hndR, heqM1]
  exact minBasis_weight_unique hM1 hM

/-- The example graph of the spec — edges (1-2), (2-3), (1-3), (3-4) — is
connected: every internal vertex reaches vertex `0`. -/
lemma exampleConnected :
    GraphConnected (nodesOf [1, 2, 1, 3] [2, 3, 3, 4]).length
      (buildGraph [1, 2, 1, 3] [2, 3, 3, 4]
        (fun i => ([1, 2, 4, threeHalves] : List ℚ).getD i 0)).edges := by
  intro v hv
  have hlen4 : (nodesOf [1, 2, 1, 3] [2, 3, 3, 4]).length = 4 := by decide
  rw [hlen4] at hv
  have e10 : estep (buildGraph [1, 2, 1, 3] [2, 3, 3, 4]
      (fun i => ([1, 2, 4, threeHalves] : List ℚ).getD i 0)).edges
      Finset.univ 1 0 :=
    ⟨⟨0, by decide⟩, Finset.mem_univ _, by decide⟩
  have e21 : estep (buildGraph [1, 2, 1, 3] [2, 3, 3, 4]
      (fun i => ([1, 2, 4, threeHalves] : List ℚ).getD i 0)).edges
      Finset.univ 2 1 :=
    ⟨⟨1, by decide⟩, Finset.mem_univ _, by decide⟩
  have e32 : estep (buildGraph [1, 2, 1, 3] [2, 3, 3, 4]
      (fun i => ([1, 2, 4, threeHalves] : List ℚ).getD i 0)).edges
      Finset.univ 3 2 :=
    ⟨⟨3, by decide⟩, Finset.mem_univ _, by decide⟩
  have l1 := Relation.ReflTransGen.single e10
  have l2 := Relation.ReflTransGen.head e21 l1
  have l3 := Relation.ReflTransGen.head e32 l2
  interval_cases v
  · exact Relation.ReflTransGen.refl
  · exact l1
  · exact l2
  · exact l3

/-- C2: on every aligned, non-empty edge list whose graph is connected,
`compute_prim_mst` and `compute_kruskal_mst` both succeed and return the
same `total_weight`; and on the spec's example edge list (1-2, w=1),
(2-3, w=2), (1-3, w=4), (3-4, w=3/2 = 1.5) both totals are 9/2 = 4.5. -/
theorem prim_kruskal_same_total :
    (∀ (src dst : List Int) (weights : List ℚ),
      src.length = dst.length → src.length = weights.length → src ≠ [] →
      GraphConnected (nodesOf src dst).length
        (buildGraph src dst (fun i => weights.getD i 0)).edges →
      ∃ rp rk, compute_prim_mst src dst weights = .ok rp
        ∧ compute_kruskal_mst src dst weights = .ok rk
        ∧ rp.total_weight = rk.total_weight)
    ∧ threeHalves = 3/2
    ∧ Except.map (fun r => r.total_weight)
        (compute_prim_mst [1, 2, 1, 3] [2, 3, 3, 4] [1, 2, 4, threeHalves])
        = .ok (9/2 : ℚ)
    ∧ Except.map (fun r => r.total_weight)
        (compute_kruskal_mst [1, 2, 1, 3] [2, 3, 3, 4] [1, 2, 4, threeHalves])
        = .ok (9/2 : ℚ) := by
  have hmk : threeHalves = 3/2 := by
    rw [show threeHalves = Rat.mk' 3 2 (by norm_num) (by norm_num) from rfl,
      Rat.mk'_eq_divInt, Rat.divInt_eq_div]
    norm_num
  refine ⟨?_, hmk, ?_, ?_⟩
  · intro src dst weights h1 h2 h3 hconn
    have hok : EdgesOk (nodesOf src dst).length
        (buildGraph src dst (fun i => weights.getD i 0)).edges :=
      edgesOk_buildEdges h1
    have h0 : 0 < (nodesOf src dst).length := length_nodesOf_pos h3
    obtain ⟨M, hM⟩ := exists_minBasis
      ((buildGraph src dst (fun i => weights.getD i 0)).edges)
    unfold compute_prim_mst compute_kruskal_mst
    rw [if_neg (by push_neg; exact ⟨h1, h2⟩), if_neg h3,
      if_neg (by push_neg; exact ⟨h1, h2⟩), if_neg h3]
    refine ⟨_, _, rfl, rfl, ?_⟩
    simp only [mstAssemble_total]
    rw [primSpec_total hok hconn h0 hM, kruskalSpec_total hok hconn h0 hM]
  · have hp : Except.map (fun r => r.total_weight)
        (compute_prim_mst [1, 2, 1, 3] [2, 3, 3, 4] [1, 2, 4, threeHalves])
        = .ok (1 + (2 + (threeHalves + 0))) := rfl
    rw [hp, hmk]
    exact congrArg Except.ok (by norm_num)
  · have hk : Except.map (fun r => r.total_weight)
        (compute_kruskal_mst [1, 2, 1, 3] [2, 3, 3, 4] [1, 2, 4, threeHalves])
        = .ok (1 + (threeHalves + (2 + 0))) := rfl
    rw [hk, hmk]
    exact congrArg Except.ok (by norm_num)

/-- Witness for the universally quantified part of the MST claim at the
spec's example graph. -/
theorem prim_kruskal_same_total_witness :
    ∃ rp rk,
      compute_prim_mst [1, 2, 1, 3] [2, 3, 3, 4] [1, 2, 4, threeHalves]
        = .ok rp
      ∧ compute_kruskal_mst [1, 2, 1, 3] [2, 3, 3, 4] [1, 2, 4, threeHalves]
        = .ok rk
      ∧ rp.total_weight = rk.total_weight :=
  prim_kruskal_same_total.1 [1, 2, 1, 3] [2, 3, 3, 4] [1, 2, 4, threeHalves]
    (by decide) (by decide) (by decide) exampleConnected

end Onager
